import Mathlib

/-!
# TopKSamplingLayer: runtime-argument resolution, setup and sampling offsets

A shallow embedding of `src/turbomind/layers/sampling_layers/TopKSamplingLayer.cc`.

* `float` is IEEE-754 binary32, kept as its three bit fields; only the comparisons
  the source uses (`==`, `!=`, `<`, `>`) are needed, and they are defined on the
  bit fields, so NaN, the infinities and the two zeros behave as on the machine.
* `uint` values are natural numbers (the source only compares and copies them).
* `int` arithmetic is checked: a result outside the 32-bit range (undefined
  behaviour in the source) is `none`.
* `size_t` to `int` conversions at call sites wrap modulo `2^32`.
* Buffers reached through raw pointers or `std::vector::data()` are lists; an
  index outside the list (undefined behaviour in the source) reads a default
  and writes nothing.
* The `printf` diagnostics of the resolver are not modelled.
* The base class is not part of the source file. Its `setup`, called at line
  159, is the only caller of the override `allocateBuffer(batch_size, top_k,
  top_p)`; it is modelled as re-sizing the buffers for the call's own runtime
  tensors and then updating the base-owned state.
-/

namespace turbomind

/-! ## binary32 -/

/-- An IEEE-754 binary32 value: sign bit, 8-bit biased exponent, 23-bit mantissa. -/
structure F32 where
  sign : Bool
  exponent : Fin 256
  mantissa : Fin 8388608
deriving DecidableEq, Repr

namespace F32

/-- NaN: all exponent bits set and a nonzero mantissa. -/
def isNaN (x : F32) : Bool := x.exponent.val == 255 && x.mantissa.val != 0

/-- Magnitude bits `exponent * 2^23 + mantissa`; monotone in the absolute value. -/
def magnitude (x : F32) : Nat := x.exponent.val * 8388608 + x.mantissa.val

/-- Order key of a non-NaN value: the signed magnitude (both zeros give `0`). -/
def key (x : F32) : Int := if x.sign then -(x.magnitude : Int) else (x.magnitude : Int)

/-- The C comparison `a == b`. -/
def eq (a b : F32) : Bool := !a.isNaN && !b.isNaN && decide (a.key = b.key)

/-- The C comparison `a != b`. -/
def ne (a b : F32) : Bool := !(eq a b)

/-- The C comparison `a < b`. -/
def lt (a b : F32) : Bool := !a.isNaN && !b.isNaN && decide (a.key < b.key)

/-- The C comparison `a > b`. -/
def gt (a b : F32) : Bool := lt b a

/-- The C comparison `a <= b`. -/
def le (a b : F32) : Bool := !a.isNaN && !b.isNaN && decide (a.key ≤ b.key)

/-- The literal `0.0f` (bits `0x00000000`). -/
def zero : F32 := ⟨false, 0, 0⟩

/-- Negative zero (bits `0x80000000`). -/
def negZero : F32 := ⟨true, 0, 0⟩

/-- The literal `1.0f` (bits `0x3F800000`). -/
def one : F32 := ⟨false, 127, 0⟩

/-- The value `0.5f` (bits `0x3F000000`). -/
def half : F32 := ⟨false, 126, 0⟩

/-- The value `-0.5f` (bits `0xBF000000`). -/
def negHalf : F32 := ⟨true, 126, 0⟩

/-- The value `0.3f` (bits `0x3E99999A`). -/
def point3 : F32 := ⟨false, 125, 1677722⟩

/-- The value `1.7f` (bits `0x3FD9999A`). -/
def onePoint7 : F32 := ⟨false, 127, 5872026⟩

/-- The value `-0.2f` (bits `0xBE4CCCCD`). -/
def negPoint2 : F32 := ⟨true, 124, 5033165⟩

/-- The default quiet NaN (bits `0x7FC00000`). -/
def qNaN : F32 := ⟨false, 255, 4194304⟩

/-- Positive infinity (bits `0x7F800000`). -/
def inf : F32 := ⟨false, 255, 0⟩

instance : Inhabited F32 := ⟨zero⟩

end F32

/-! ## `setup_topk_runtime_args` -/

/-- The three arrays `setup_topk_runtime_args` writes through its pointer
arguments `top_ks`, `top_ps` and `skip_decode`. -/
structure TopKBuffers where
  top_ks : List Nat
  top_ps : List F32
  skip_decode : List Bool
deriving DecidableEq, Repr

/-- Lines 43-76 of the loop body on the local pair `(k, p)`: the compatibility
remap, then the value stored to `top_ks[i]`, the value stored to `top_ps[i]`
and the value stored to `skip_decode[i]`. -/
def resolve_request (TOP_K_MAX : Nat) (k : Nat) (p : F32) : Nat × F32 × Bool :=
  let k := if k == 0 && F32.eq p F32.zero then 1 else k
  let p := if decide (k > 0) && F32.eq p F32.zero then F32.one else p
  (if k > TOP_K_MAX then TOP_K_MAX else k,
   if F32.lt p F32.zero then F32.zero else (if F32.gt p F32.one then F32.one else p),
   k == 0)

/-- One iteration of the loop of `setup_topk_runtime_args` at index `i`
(lines 41-76). -/
def setup_topk_runtime_args_iter (TOP_K_MAX : Nat) (top_k : Nat) (top_ks_size : Int)
    (top_p : F32) (top_ps_size : Int) (b : TopKBuffers) (i : Nat) : TopKBuffers :=
  let k := if top_ks_size > 1 then b.top_ks.getD i 0 else top_k
  let p := if top_ps_size > 1 then b.top_ps.getD i F32.zero else top_p
  let r := resolve_request TOP_K_MAX k p
  { top_ks := b.top_ks.set i r.1
    top_ps := b.top_ps.set i r.2.1
    skip_decode := b.skip_decode.set i r.2.2 }

/-- The function `setup_topk_runtime_args<TOP_K_MAX>`:
`for (int i = 0; i < batch_size; ++i)` over the iteration above. -/
def setup_topk_runtime_args (TOP_K_MAX : Nat) (batch_size : Int) (top_k : Nat)
    (top_ks : List Nat) (top_ks_size : Int) (top_p : F32) (top_ps : List F32)
    (top_ps_size : Int) (skip_decode : List Bool) : TopKBuffers :=
  (List.range batch_size.toNat).foldl
    (setup_topk_runtime_args_iter TOP_K_MAX top_k top_ks_size top_p top_ps_size)
    ⟨top_ks, top_ps, skip_decode⟩

/-- The raw `k` the loop reads for request `i` (line 41). -/
def raw_k (top_k : Nat) (top_ks : List Nat) (top_ks_size : Int) (i : Nat) : Nat :=
  if top_ks_size > 1 then top_ks.getD i 0 else top_k

/-- The raw `p` the loop reads for request `i` (line 42). -/
def raw_p (top_p : F32) (top_ps : List F32) (top_ps_size : Int) (i : Nat) : F32 :=
  if top_ps_size > 1 then top_ps.getD i F32.zero else top_p

/-- The triple the loop stores for request `i`, from the raw values in the
initial buffers `b`. -/
def resolved_at (TOP_K_MAX : Nat) (top_k : Nat) (top_ks_size : Int) (top_p : F32)
    (top_ps_size : Int) (b : TopKBuffers) (i : Nat) : Nat × F32 × Bool :=
  resolve_request TOP_K_MAX (raw_k top_k b.top_ks top_ks_size i)
    (raw_p top_p b.top_ps top_ps_size i)

/-! ## Tensors and runtime arguments -/

/-- The `TensorMap* runtime_args` of `setup`, restricted to the two entries this
file reads; `none` is `isExist(..) == false`, and a present tensor is the list
of its elements (its `size()` is the length). -/
structure RuntimeArgs where
  runtime_top_k : Option (List Nat)
  runtime_top_p : Option (List F32)
deriving DecidableEq, Repr

/-- Modelled from the spec: `Tensor::max<uint>()` (declared outside this file),
the batch-wide maximum, computed by a left-to-right scan that starts from
element 0 and replaces the running value when a strictly larger one is met. -/
def tensor_max (t : List Nat) : Nat :=
  match t with
  | [] => 0
  | x :: xs => xs.foldl (fun m v => if v > m then v else m) x

/-- Modelled from the spec: `Tensor::min<float>()` (declared outside this file),
the batch-wide minimum, computed by a left-to-right scan that starts from
element 0 and replaces the running value when a strictly smaller one is met. -/
def tensor_min (t : List F32) : F32 :=
  match t with
  | [] => F32.zero
  | x :: xs => xs.foldl (fun m v => if F32.lt v m then v else m) x

/-- Modelled from the spec: `Tensor::getVal<T>()` (declared outside this file),
the single broadcast value, i.e. element 0. -/
def tensor_getVal {α : Type} [Inhabited α] (t : List α) : α := t.headD default

/-- The method `std::vector<T>::resize(n)` with value-initialised new elements. -/
def vector_resize {α : Type} (v : List α) (n : Nat) (d : α) : List α :=
  v.take n ++ List.replicate (n - v.length) d

/-- The call `std::copy_n(src, n, dst)`: the first `n` elements of `dst` become
the first `n` elements of `src`. -/
def copy_n {α : Type} (src : List α) (n : Nat) (dst : List α) : List α :=
  src.take n ++ dst.drop n

/-- Modelled from the spec: `cudaAutoCpy(dst, src, n, stream)` (declared outside
this file), the copy of the first `n` resolved values to the device mirror. -/
def cudaAutoCpy {α : Type} (dst src : List α) (n : Nat) : List α :=
  src.take n ++ dst.drop n

/-- The expression `*std::max_element(v.begin(), v.begin() + n)`: the largest of
the first `n` elements; on an empty range `max_element` returns `v.begin() + n`,
which is then dereferenced. -/
def max_element_deref (v : List Nat) (n : Nat) : Nat :=
  match v.take n with
  | [] => v.getD n 0
  | x :: xs => xs.foldl (fun m e => if m < e then e else m) x

/-- Conversion of a `size_t` value to the `int` parameter it is passed for. -/
def int_of_size_t (n : Nat) : Int :=
  (((n + 2147483648) % 4294967296 : Nat) : Int) - 2147483648

/-! ## Layer state -/

/-- The members of `TopKSamplingLayer<T>` this file reads or writes. `base` is
the state owned by `BaseSamplingLayer<T>` (temperature, penalties, random
states); a device buffer is the list of its elements; `sampling_workspace_` is
the byte capacity of the allocated scratch region. -/
structure TopKSamplingLayer (β : Type) where
  base : β
  skip_all_ : Bool
  h_runtime_top_k_ : List Nat
  h_runtime_top_p_ : List F32
  skip_decode_ : List Bool
  runtime_max_top_k_ : Nat
  runtime_top_k_buf_ : List Nat
  runtime_top_p_buf_ : List F32
  skip_decode_buf_ : List Bool
  sampling_workspace_size_ : Nat
  sampling_workspace_ : Nat
  is_allocate_buffer_ : Bool
deriving DecidableEq, Repr

/-- Modelled from the spec: the external collaborators of the layer (spec §6),
none of which is defined in this file. `workspace_size max_top_k batch_size` is
the sizing query (`invokeTopKSampling` called with a null workspace);
`base_setup` is the part of `BaseSamplingLayer<T>::setup` that works on the
base-owned state (temperature, repetition penalty, random states) and may
fail; `base_allocateBuffer` is `BaseSamplingLayer<T>::allocateBuffer`;
`reMalloc_uint` and `reMalloc_float` are the device allocator's
reallocate-to-size. -/
structure Collaborators (β : Type) where
  workspace_size : Nat → Nat → Nat
  base_setup : Nat → Nat → RuntimeArgs → β → Option β
  base_allocateBuffer : Nat → List Nat → List F32 → β → β
  reMalloc_uint : List Nat → Nat → List Nat
  reMalloc_float : List F32 → Nat → List F32

/-- The ways `setup` can abort. -/
inductive SetupError where
  | base_setup_failed
  | runtime_top_k_size_mismatch
  | runtime_top_p_size_mismatch
deriving DecidableEq, Repr

/-! ## `allocateBuffer` and `setup` -/

/-- The local `max_top_k` of `allocateBuffer` (lines 91-96): the maximum of the
`top_k` tensor, `1` when the tensor is empty, and `1` in place of `0`. -/
def allocateBuffer_max_top_k (top_k : List Nat) : Nat :=
  let max_top_k := if top_k.length > 0 then tensor_max top_k else 1
  if max_top_k == 0 then 1 else max_top_k

/-- The method `TopKSamplingLayer<T>::allocateBuffer(batch_size, top_k, top_p)`
(lines 86-119). -/
def allocateBuffer {β : Type} (c : Collaborators β) (batch_size : Nat) (top_k : List Nat)
    (top_p : List F32) (s : TopKSamplingLayer β) : TopKSamplingLayer β :=
  let base := c.base_allocateBuffer batch_size top_k top_p s.base
  let max_top_k := allocateBuffer_max_top_k top_k
  let sampling_workspace_size := c.workspace_size max_top_k batch_size
  { s with
    base := base
    sampling_workspace_size_ := sampling_workspace_size
    sampling_workspace_ := sampling_workspace_size
    runtime_top_k_buf_ := c.reMalloc_uint s.runtime_top_k_buf_ batch_size
    runtime_top_p_buf_ := c.reMalloc_float s.runtime_top_p_buf_ batch_size
    is_allocate_buffer_ := true }

/-- The local `max_top_k` of `setup` (lines 147-149). -/
def setup_max_top_k (runtime_args : RuntimeArgs) : Nat :=
  let runtime_top_k := runtime_args.runtime_top_k.getD []
  if runtime_top_k.length > 0 then tensor_max runtime_top_k else 0

/-- The local `min_top_p` of `setup` (lines 145-150). -/
def setup_min_top_p (runtime_args : RuntimeArgs) : F32 :=
  let runtime_top_p := runtime_args.runtime_top_p.getD []
  if runtime_top_p.length > 0 then tensor_min runtime_top_p else F32.zero

/-- The guard of line 154: `max_top_k == 0 && min_top_p != 0.0f`. -/
def setup_skip_all (runtime_args : RuntimeArgs) : Bool :=
  setup_max_top_k runtime_args == 0 && F32.ne (setup_min_top_p runtime_args) F32.zero

/-- Modelled from the spec: `BaseSamplingLayer<T>::setup(batch_size, beam_width,
runtime_args)`, the base call of line 159, which is not defined in this file.
It is the only caller of the override `allocateBuffer(batch_size, top_k,
top_p)`: it re-sizes the layer's buffers for the call's own `runtime_top_k` and
`runtime_top_p` (an absent argument is the empty tensor), so that the workspace
is reallocated whenever the batch maximum changes and is never stale, and then
performs the shared temperature/repetition-penalty/random-state setup on the
base-owned state. -/
def BaseSamplingLayer_setup {β : Type} (c : Collaborators β) (batch_size beam_width : Nat)
    (runtime_args : RuntimeArgs) (s : TopKSamplingLayer β) : Option (TopKSamplingLayer β) :=
  let runtime_top_k := runtime_args.runtime_top_k.getD []
  let runtime_top_p := runtime_args.runtime_top_p.getD []
  match c.base_setup batch_size beam_width runtime_args
      (c.base_allocateBuffer batch_size runtime_top_k runtime_top_p s.base) with
  | none => none
  | some base =>
    some { allocateBuffer c batch_size runtime_top_k runtime_top_p s with base := base }

/-- The method `TopKSamplingLayer<T>::setup(batch_size, beam_width, runtime_args)`
(lines 134-196). A failed `FT_CHECK_WITH_INFO` is an error. The members the
body assigns are carried as locals (`resized` is the pair of host vectors after
lines 161-164) and written back in the returned state; `skip_all_` is `true`
on the early return of lines 154-157 and `false` (line 151) otherwise. -/
def setup {β : Type} (c : Collaborators β) (batch_size beam_width : Nat)
    (runtime_args : RuntimeArgs) (s : TopKSamplingLayer β) :
    Except SetupError (TopKSamplingLayer β) :=
  let runtime_top_p := runtime_args.runtime_top_p.getD []
  let runtime_top_p_size := runtime_top_p.length
  let runtime_top_k := runtime_args.runtime_top_k.getD []
  let runtime_top_k_size := runtime_top_k.length
  if setup_skip_all runtime_args then
    Except.ok { s with skip_all_ := true }
  else
    match BaseSamplingLayer_setup c batch_size beam_width runtime_args s with
    | none => Except.error SetupError.base_setup_failed
    | some s1 =>
      let resized :=
        if s1.h_runtime_top_k_.length < batch_size then
          (vector_resize s1.h_runtime_top_k_ batch_size 0,
           vector_resize s1.h_runtime_top_p_ batch_size F32.zero)
        else (s1.h_runtime_top_k_, s1.h_runtime_top_p_)
      let top_k := if runtime_top_k_size > 0 then tensor_getVal runtime_top_k else 0
      let top_p := if runtime_top_p_size > 0 then tensor_getVal runtime_top_p else F32.zero
      if runtime_top_k_size > 1 ∧ runtime_top_k_size ≠ batch_size then
        Except.error SetupError.runtime_top_k_size_mismatch
      else
        let h_runtime_top_k :=
          if runtime_top_k_size > 1 then copy_n runtime_top_k batch_size resized.1
          else resized.1
        if runtime_top_p_size > 1 ∧ runtime_top_p_size ≠ batch_size then
          Except.error SetupError.runtime_top_p_size_mismatch
        else
          let h_runtime_top_p :=
            if runtime_top_p_size > 1 then copy_n runtime_top_p batch_size resized.2
            else resized.2
          let r := setup_topk_runtime_args 1024 (int_of_size_t batch_size) top_k
            h_runtime_top_k (int_of_size_t runtime_top_k_size) top_p
            h_runtime_top_p (int_of_size_t runtime_top_p_size) s1.skip_decode_
          Except.ok { s1 with
            skip_all_ := false
            h_runtime_top_k_ := r.top_ks
            h_runtime_top_p_ := r.top_ps
            skip_decode_ := r.skip_decode
            runtime_max_top_k_ := max_element_deref r.top_ks batch_size
            runtime_top_k_buf_ := cudaAutoCpy s1.runtime_top_k_buf_ r.top_ks batch_size
            runtime_top_p_buf_ := cudaAutoCpy s1.runtime_top_p_buf_ r.top_ps batch_size
            skip_decode_buf_ := cudaAutoCpy s1.skip_decode_buf_ r.skip_decode batch_size }

/-- The contents of `h_runtime_top_k_` when `setup` calls
`setup_topk_runtime_args` (after lines 161-174). -/
def setup_staged_top_k {β : Type} (batch_size : Nat) (runtime_args : RuntimeArgs)
    (s : TopKSamplingLayer β) : List Nat :=
  let runtime_top_k := runtime_args.runtime_top_k.getD []
  let resized :=
    if s.h_runtime_top_k_.length < batch_size then
      (vector_resize s.h_runtime_top_k_ batch_size 0,
       vector_resize s.h_runtime_top_p_ batch_size F32.zero)
    else (s.h_runtime_top_k_, s.h_runtime_top_p_)
  if runtime_top_k.length > 1 then copy_n runtime_top_k batch_size resized.1 else resized.1

/-- The contents of `h_runtime_top_p_` when `setup` calls
`setup_topk_runtime_args` (after lines 161-180). -/
def setup_staged_top_p {β : Type} (batch_size : Nat) (runtime_args : RuntimeArgs)
    (s : TopKSamplingLayer β) : List F32 :=
  let runtime_top_p := runtime_args.runtime_top_p.getD []
  let resized :=
    if s.h_runtime_top_k_.length < batch_size then
      (vector_resize s.h_runtime_top_k_ batch_size 0,
       vector_resize s.h_runtime_top_p_ batch_size F32.zero)
    else (s.h_runtime_top_k_, s.h_runtime_top_p_)
  if runtime_top_p.length > 1 then copy_n runtime_top_p batch_size resized.2 else resized.2

/-- The call of lines 182-189, `setup_topk_runtime_args<1024>` on the staged
host buffers and the broadcast values of lines 166-167. -/
def setup_resolved {β : Type} (batch_size : Nat) (runtime_args : RuntimeArgs)
    (s : TopKSamplingLayer β) : TopKBuffers :=
  let runtime_top_p := runtime_args.runtime_top_p.getD []
  let runtime_top_k := runtime_args.runtime_top_k.getD []
  let top_k := if runtime_top_k.length > 0 then tensor_getVal runtime_top_k else 0
  let top_p := if runtime_top_p.length > 0 then tensor_getVal runtime_top_p else F32.zero
  setup_topk_runtime_args 1024 (int_of_size_t batch_size) top_k
    (setup_staged_top_k batch_size runtime_args s) (int_of_size_t runtime_top_k.length) top_p
    (setup_staged_top_p batch_size runtime_args s) (int_of_size_t runtime_top_p.length)
    s.skip_decode_

/-- A sequence of `setup` calls, each with its own `batch_size` and runtime
arguments, stopping at the first call that aborts. -/
def setup_sequence {β : Type} (c : Collaborators β) (beam_width : Nat) :
    List (Nat × RuntimeArgs) → TopKSamplingLayer β → Except SetupError (TopKSamplingLayer β)
  | [], s => Except.ok s
  | call :: rest, s =>
    match setup c call.1 beam_width call.2 s with
    | Except.error e => Except.error e
    | Except.ok s1 => setup_sequence c beam_width rest s1

/-- The states a layer passes through. A newly constructed layer has empty host
vectors (the resolved parameters are created on the first setup call); from
there it moves by `allocateBuffer` and by successful `setup` calls. -/
inductive Reachable {β : Type} (c : Collaborators β) : TopKSamplingLayer β → Prop where
  | constructed (s : TopKSamplingLayer β) :
      s.h_runtime_top_k_ = [] → s.h_runtime_top_p_ = [] → Reachable c s
  | by_allocateBuffer (s : TopKSamplingLayer β) (batch_size : Nat) (top_k : List Nat)
      (top_p : List F32) :
      Reachable c s → Reachable c (allocateBuffer c batch_size top_k top_p s)
  | by_setup (s s' : TopKSamplingLayer β) (batch_size beam_width : Nat)
      (runtime_args : RuntimeArgs) :
      Reachable c s → setup c batch_size beam_width runtime_args s = Except.ok s' →
      Reachable c s'

/-! ## A concrete layer -/

/-- Concrete collaborators: the sizing query asks for `max_top_k * batch_size`
bytes, the base setup always succeeds, the allocator returns zeroed memory. -/
def example_collaborators : Collaborators Unit where
  workspace_size := fun max_top_k batch_size => max_top_k * batch_size
  base_setup := fun _ _ _ b => some b
  base_allocateBuffer := fun _ _ _ b => b
  reMalloc_uint := fun _ n => List.replicate n 0
  reMalloc_float := fun _ n => List.replicate n F32.zero

/-- A concrete layer state: empty host vectors, a `skip_decode_` array of eight
slots, `runtime_max_top_k_ = 1`, nothing allocated. -/
def example_layer : TopKSamplingLayer Unit where
  base := ()
  skip_all_ := false
  h_runtime_top_k_ := []
  h_runtime_top_p_ := []
  skip_decode_ := List.replicate 8 false
  runtime_max_top_k_ := 1
  runtime_top_k_buf_ := []
  runtime_top_p_buf_ := []
  skip_decode_buf_ := []
  sampling_workspace_size_ := 0
  sampling_workspace_ := 0
  is_allocate_buffer_ := false

/-- The state `setup` returns on `example_layer` for `batch_size = 5`,
`runtime_top_k = [0, 5, 2000, 1, 2]` and the scalar `runtime_top_p = 0.3`. -/
def example_layer_after_first_setup : TopKSamplingLayer Unit where
  base := ()
  skip_all_ := false
  h_runtime_top_k_ := [0, 5, 1024, 1, 2]
  h_runtime_top_p_ := [F32.point3, F32.point3, F32.point3, F32.point3, F32.point3]
  skip_decode_ := [true, false, false, false, false, false, false, false]
  runtime_max_top_k_ := 1024
  runtime_top_k_buf_ := [0, 5, 1024, 1, 2]
  runtime_top_p_buf_ := [F32.point3, F32.point3, F32.point3, F32.point3, F32.point3]
  skip_decode_buf_ := [true, false, false, false, false]
  sampling_workspace_size_ := 10000
  sampling_workspace_ := 10000
  is_allocate_buffer_ := true

/-- The state `setup` returns on `example_layer_after_first_setup` for the
smaller `batch_size = 2`, the scalar `runtime_top_k = 4` and no `runtime_top_p`. -/
def example_layer_after_second_setup : TopKSamplingLayer Unit where
  base := ()
  skip_all_ := false
  h_runtime_top_k_ := [4, 4, 1024, 1, 2]
  h_runtime_top_p_ := [F32.one, F32.one, F32.point3, F32.point3, F32.point3]
  skip_decode_ := [false, false, false, false, false, false, false, false]
  runtime_max_top_k_ := 4
  runtime_top_k_buf_ := [4, 4]
  runtime_top_p_buf_ := [F32.one, F32.one]
  skip_decode_buf_ := [false, false, false, false, false]
  sampling_workspace_size_ := 8
  sampling_workspace_ := 8
  is_allocate_buffer_ := true

/-- The state reached from `example_layer` by `allocateBuffer(3, [7], [])`, then
`setup` with `runtime_top_k = [0, 5, 2000]` and scalar `runtime_top_p = 0.3`,
then `setup` with scalar `runtime_top_k = 0` and scalar `runtime_top_p = 0.5`
(skip-all). -/
def example_layer_allocated_after_setups : TopKSamplingLayer Unit where
  base := ()
  skip_all_ := true
  h_runtime_top_k_ := [0, 5, 1024]
  h_runtime_top_p_ := [F32.point3, F32.point3, F32.point3]
  skip_decode_ := [true, false, false, false, false, false, false, false]
  runtime_max_top_k_ := 1024
  runtime_top_k_buf_ := [0, 5, 1024]
  runtime_top_p_buf_ := [F32.point3, F32.point3, F32.point3]
  skip_decode_buf_ := [true, false, false]
  sampling_workspace_size_ := 6000
  sampling_workspace_ := 6000
  is_allocate_buffer_ := true

/-! ## Buffer offsets of `runSampling` -/

/-- A value of type `int`: `none` when outside the 32-bit range (signed overflow
is undefined behaviour). -/
def int_checked (x : Int) : Option Int :=
  if -2147483648 ≤ x ∧ x ≤ 2147483647 then some x else none

/-- The `int` product `a * b`. -/
def int_mul (a b : Int) : Option Int := int_checked (a * b)

/-- The `int` sum `a + b`. -/
def int_add (a b : Int) : Option Int := int_checked (a + b)

/-- The offsets `runSampling` hands to `invokeBatchTopKSampling`. -/
structure SamplingOffsets where
  output_ids : Int
  curand_state : Int
  runtime_top_k_buf : Int
  runtime_top_p_buf : Int
  skip_decode_buf : Int
deriving DecidableEq, Repr

/-- The offset of line 270, `step * batch_size + ite * local_batch_size`. -/
def output_ids_offset (step batch_size ite local_batch_size : Int) : Option Int :=
  (int_mul step batch_size).bind fun a =>
    (int_mul ite local_batch_size).bind fun b => int_add a b

/-- The offset of lines 278, 280, 282 and 287, `ite * local_batch_size`. -/
def param_offset (ite local_batch_size : Int) : Option Int :=
  int_mul ite local_batch_size

/-- The offsets of the call at lines 266-287, from the four `int` locals of
lines 223-226. -/
def runSampling_offsets (batch_size local_batch_size ite step : Int) :
    Option SamplingOffsets :=
  (output_ids_offset step batch_size ite local_batch_size).bind fun o =>
    (param_offset ite local_batch_size).bind fun q =>
      some ⟨o, q, q, q, q⟩

end turbomind

/-! # Theorems -/

namespace turbomind

/-! ## binary32 comparisons -/

theorem F32.key_zero : F32.zero.key = 0 := by decide

theorem F32.key_one : F32.one.key = 1065353216 := by decide

theorem F32.isNaN_zero : F32.zero.isNaN = false := by decide

theorem F32.isNaN_one : F32.one.isNaN = false := by decide

theorem F32.eq_zero_false_of_gt_one (p : F32) (h : F32.gt p F32.one = true) :
    F32.eq p F32.zero = false := by
  simp only [F32.gt, F32.lt, F32.eq, F32.key_zero, F32.key_one, F32.isNaN_zero, F32.isNaN_one,
    Bool.and_eq_true, Bool.not_eq_true', decide_eq_true_eq, Bool.not_false, Bool.and_true,
    Bool.true_and, Bool.and_eq_false_imp] at h ⊢
  intro _
  simp only [decide_eq_false_iff_not]
  omega

theorem F32.eq_zero_false_of_lt_zero (p : F32) (h : F32.lt p F32.zero = true) :
    F32.eq p F32.zero = false := by
  simp only [F32.lt, F32.eq, F32.key_zero, F32.isNaN_zero,
    Bool.and_eq_true, Bool.not_eq_true', decide_eq_true_eq, Bool.not_false, Bool.and_true,
    Bool.and_eq_false_imp] at h ⊢
  intro _
  simp only [decide_eq_false_iff_not]
  omega

theorem F32.eq_zero_false_of_gt_zero (p : F32) (h : F32.gt p F32.zero = true) :
    F32.eq p F32.zero = false := by
  simp only [F32.gt, F32.lt, F32.eq, F32.key_zero, F32.isNaN_zero,
    Bool.and_eq_true, Bool.not_eq_true', decide_eq_true_eq, Bool.not_false, Bool.and_true,
    Bool.true_and, Bool.and_eq_false_imp] at h ⊢
  intro _
  simp only [decide_eq_false_iff_not]
  omega

theorem F32.lt_zero_false_of_gt_zero (p : F32) (h : F32.gt p F32.zero = true) :
    F32.lt p F32.zero = false := by
  simp only [F32.gt, F32.lt, F32.key_zero, F32.isNaN_zero,
    Bool.and_eq_true, Bool.not_eq_true', decide_eq_true_eq, Bool.not_false, Bool.and_true,
    Bool.true_and, Bool.and_eq_false_imp] at h ⊢
  intro _
  simp only [decide_eq_false_iff_not]
  omega

theorem F32.lt_zero_false_of_gt_one (p : F32) (h : F32.gt p F32.one = true) :
    F32.lt p F32.zero = false := by
  simp only [F32.gt, F32.lt, F32.key_zero, F32.key_one, F32.isNaN_zero, F32.isNaN_one,
    Bool.and_eq_true, Bool.not_eq_true', decide_eq_true_eq, Bool.not_false, Bool.and_true,
    Bool.true_and, Bool.and_eq_false_imp] at h ⊢
  intro _
  simp only [decide_eq_false_iff_not]
  omega

theorem F32.gt_one_false_of_le_one (p : F32) (h : F32.le p F32.one = true) :
    F32.gt p F32.one = false := by
  simp only [F32.gt, F32.lt, F32.le, F32.key_one, F32.isNaN_one,
    Bool.and_eq_true, Bool.not_eq_true', decide_eq_true_eq, Bool.not_false, Bool.and_true,
    Bool.true_and, Bool.and_eq_false_imp] at h ⊢
  intro _
  simp only [decide_eq_false_iff_not]
  omega

/-- A non-NaN value that is neither below `0.0f` nor above `1.0f` lies in `[0, 1]`. -/
theorem F32.in_unit_of_not_lt_not_gt (p : F32) (hn : p.isNaN = false)
    (h0 : F32.lt p F32.zero = false) (h1 : F32.gt p F32.one = false) :
    F32.le F32.zero p = true ∧ F32.le p F32.one = true := by
  simp only [F32.gt, F32.lt, F32.le, F32.key_zero, F32.key_one, F32.isNaN_zero, F32.isNaN_one,
    hn, Bool.not_false, Bool.and_true, Bool.true_and, decide_eq_false_iff_not,
    decide_eq_true_eq] at h0 h1 ⊢
  omega

/-! ## The per-request rule of `setup_topk_runtime_args` -/

theorem resolve_request_top_k_le (K k : Nat) (p : F32) : (resolve_request K k p).1 ≤ K := by
  simp only [resolve_request]
  generalize (if (k == 0 && F32.eq p F32.zero) = true then 1 else k) = k1
  by_cases h : k1 > K
  · rw [if_pos h]
  · rw [if_neg h]; omega

theorem resolve_request_skip_iff (K : Nat) (hK : 1 ≤ K) (k : Nat) (p : F32) :
    (resolve_request K k p).2.2 = true ↔ (resolve_request K k p).1 = 0 := by
  simp only [resolve_request, beq_iff_eq]
  generalize (if (k == 0 && F32.eq p F32.zero) = true then 1 else k) = k1
  constructor
  · intro h
    rw [h, if_neg (by omega)]
  · intro h
    by_cases h1 : k1 > K
    · rw [if_pos h1] at h; omega
    · rw [if_neg h1] at h; exact h

theorem resolve_request_top_p_in_unit (K k : Nat) (p : F32) (hn : p.isNaN = false) :
    F32.le F32.zero (resolve_request K k p).2.1 = true ∧
      F32.le (resolve_request K k p).2.1 F32.one = true := by
  simp only [resolve_request]
  generalize hq : (if (decide ((if (k == 0 && F32.eq p F32.zero) = true then 1 else k) > 0)
      && F32.eq p F32.zero) = true then F32.one else p) = q
  have hqn : q.isNaN = false := by
    rw [← hq]
    generalize (decide ((if (k == 0 && F32.eq p F32.zero) = true then 1 else k) > 0)
      && F32.eq p F32.zero) = c
    cases c
    · simpa using hn
    · simpa using F32.isNaN_one
  by_cases h0 : F32.lt q F32.zero = true
  · rw [if_pos h0]; decide
  · rw [if_neg h0]
    by_cases h1 : F32.gt q F32.one = true
    · rw [if_pos h1]; decide
    · rw [if_neg h1]
      exact F32.in_unit_of_not_lt_not_gt q hqn (by simpa using h0) (by simpa using h1)

theorem resolve_request_zero_zero (K : Nat) (hK : 1 ≤ K) (p : F32)
    (hp : F32.eq p F32.zero = true) :
    resolve_request K 0 p = (1, F32.one, false) := by
  have h1 : ¬ (1 > K) := by omega
  simp [resolve_request, hp, h1]
  decide

theorem resolve_request_pos_zero (K k : Nat) (hk : 0 < k) (p : F32)
    (hp : F32.eq p F32.zero = true) :
    resolve_request K k p = (if k > K then K else k, F32.one, false) := by
  have hk0 : k ≠ 0 := by omega
  simp [resolve_request, hp, hk0, hk]
  decide

theorem resolve_request_zero_nonzero (K : Nat) (p : F32) (hp : F32.ne p F32.zero = true) :
    (resolve_request K 0 p).1 = 0 ∧ (resolve_request K 0 p).2.2 = true := by
  have hp0 : F32.eq p F32.zero = false := by simpa [F32.ne] using hp
  simp [resolve_request, hp0]

theorem resolve_request_top_k_of_pos (K k : Nat) (hk : 0 < k) (p : F32) :
    (resolve_request K k p).1 = if k > K then K else k := by
  have hk0 : k ≠ 0 := by omega
  simp [resolve_request, hk0]

theorem resolve_request_top_p_of_gt_one (K k : Nat) (p : F32) (hp : F32.gt p F32.one = true) :
    (resolve_request K k p).2.1 = F32.one := by
  simp [resolve_request, F32.eq_zero_false_of_gt_one p hp, F32.lt_zero_false_of_gt_one p hp, hp]

theorem resolve_request_top_p_of_lt_zero (K k : Nat) (p : F32) (hp : F32.lt p F32.zero = true) :
    (resolve_request K k p).2.1 = F32.zero := by
  simp [resolve_request, F32.eq_zero_false_of_lt_zero p hp, hp]

theorem resolve_request_top_p_of_in_range (K k : Nat) (p : F32)
    (h0 : F32.gt p F32.zero = true) (h1 : F32.le p F32.one = true) :
    (resolve_request K k p).2.1 = p := by
  simp [resolve_request, F32.eq_zero_false_of_gt_zero p h0, F32.lt_zero_false_of_gt_zero p h0,
    F32.gt_one_false_of_le_one p h1]

/-- Special values through the per-request rule: negative zero compares equal to
`0.0f` and is remapped like it; `+inf` is clipped to `1.0`; `0.5` is kept. -/
theorem resolve_request_special_values :
    resolve_request 1024 0 F32.negZero = (1, F32.one, false) ∧
    resolve_request 1024 7 F32.negZero = (7, F32.one, false) ∧
    resolve_request 1024 7 F32.inf = (7, F32.one, false) ∧
    resolve_request 1024 0 F32.half = (0, F32.half, true) := by
  decide

end turbomind

namespace turbomind

/-! ## The loop of `setup_topk_runtime_args` -/

/-- Loop invariant after `n` iterations: lengths are kept, entries at indices
`≥ n` are untouched, entries at indices `< n` hold the resolved triple. -/
theorem loop_invariant (K top_k : Nat) (ksz : Int) (top_p : F32) (psz : Int)
    (b : TopKBuffers) (n : Nat) :
    ((List.range n).foldl (setup_topk_runtime_args_iter K top_k ksz top_p psz) b).top_ks.length
        = b.top_ks.length ∧
    ((List.range n).foldl (setup_topk_runtime_args_iter K top_k ksz top_p psz) b).top_ps.length
        = b.top_ps.length ∧
    ((List.range n).foldl (setup_topk_runtime_args_iter K top_k ksz top_p psz) b).skip_decode.length
        = b.skip_decode.length ∧
    (∀ i, n ≤ i →
      ((List.range n).foldl (setup_topk_runtime_args_iter K top_k ksz top_p psz) b).top_ks[i]?
          = b.top_ks[i]? ∧
      ((List.range n).foldl (setup_topk_runtime_args_iter K top_k ksz top_p psz) b).top_ps[i]?
          = b.top_ps[i]? ∧
      ((List.range n).foldl (setup_topk_runtime_args_iter K top_k ksz top_p psz) b).skip_decode[i]?
          = b.skip_decode[i]?) ∧
    (∀ i, i < n →
      (i < b.top_ks.length →
        ((List.range n).foldl (setup_topk_runtime_args_iter K top_k ksz top_p psz) b).top_ks[i]?
          = some (resolved_at K top_k ksz top_p psz b i).1) ∧
      (i < b.top_ps.length →
        ((List.range n).foldl (setup_topk_runtime_args_iter K top_k ksz top_p psz) b).top_ps[i]?
          = some (resolved_at K top_k ksz top_p psz b i).2.1) ∧
      (i < b.skip_decode.length →
        ((List.range n).foldl (setup_topk_runtime_args_iter K top_k ksz top_p psz) b).skip_decode[i]?
          = some (resolved_at K top_k ksz top_p psz b i).2.2)) := by
  induction n with
  | zero => simp
  | succ n ih =>
    obtain ⟨hk, hp, hs, hge, hlt⟩ := ih
    rw [List.range_succ, List.foldl_append]
    simp only [List.foldl_cons, List.foldl_nil]
    generalize (List.range n).foldl (setup_topk_runtime_args_iter K top_k ksz top_p psz) b = r
      at hk hp hs hge hlt
    have hrk : (if ksz > 1 then r.top_ks.getD n 0 else top_k) = raw_k top_k b.top_ks ksz n := by
      unfold raw_k
      simp only [List.getD_eq_getElem?_getD, (hge n le_rfl).1]
    have hrp : (if psz > 1 then r.top_ps.getD n F32.zero else top_p)
        = raw_p top_p b.top_ps psz n := by
      unfold raw_p
      simp only [List.getD_eq_getElem?_getD, (hge n le_rfl).2.1]
    have hiter : setup_topk_runtime_args_iter K top_k ksz top_p psz r n =
        { top_ks := r.top_ks.set n (resolved_at K top_k ksz top_p psz b n).1
          top_ps := r.top_ps.set n (resolved_at K top_k ksz top_p psz b n).2.1
          skip_decode := r.skip_decode.set n (resolved_at K top_k ksz top_p psz b n).2.2 } := by
      unfold setup_topk_runtime_args_iter resolved_at
      simp only [hrk, hrp]
    rw [hiter]
    refine ⟨by simp [hk], by simp [hp], by simp [hs], ?_, ?_⟩
    · intro i hi
      have hne : n ≠ i := by omega
      have h := hge i (by omega)
      simp only [List.getElem?_set_ne hne, h, and_self]
    · intro i hi
      by_cases hin : i = n
      · subst hin
        refine ⟨fun h => ?_, fun h => ?_, fun h => ?_⟩
        · rw [List.getElem?_set, if_pos rfl, if_pos (by omega)]
        · rw [List.getElem?_set, if_pos rfl, if_pos (by omega)]
        · rw [List.getElem?_set, if_pos rfl, if_pos (by omega)]
      · have hne : n ≠ i := fun h => hin h.symm
        have h := hlt i (by omega)
        simp only [List.getElem?_set_ne hne]
        exact h

/-- The buffers keep their lengths. -/
theorem setup_topk_runtime_args_length (K : Nat) (batch_size : Int) (top_k : Nat)
    (top_ks : List Nat) (ksz : Int) (top_p : F32) (top_ps : List F32) (psz : Int)
    (skip_decode : List Bool) :
    (setup_topk_runtime_args K batch_size top_k top_ks ksz top_p top_ps psz
        skip_decode).top_ks.length = top_ks.length ∧
    (setup_topk_runtime_args K batch_size top_k top_ks ksz top_p top_ps psz
        skip_decode).top_ps.length = top_ps.length ∧
    (setup_topk_runtime_args K batch_size top_k top_ks ksz top_p top_ps psz
        skip_decode).skip_decode.length = skip_decode.length := by
  have h := loop_invariant K top_k ksz top_p psz ⟨top_ks, top_ps, skip_decode⟩ batch_size.toNat
  exact ⟨h.1, h.2.1, h.2.2.1⟩

/-- Entries at indices `≥ batch_size` are not touched. -/
theorem setup_topk_runtime_args_beyond (K : Nat) (batch_size : Int) (top_k : Nat)
    (top_ks : List Nat) (ksz : Int) (top_p : F32) (top_ps : List F32) (psz : Int)
    (skip_decode : List Bool) (i : Nat) (hi : batch_size ≤ (i : Int)) :
    (setup_topk_runtime_args K batch_size top_k top_ks ksz top_p top_ps psz
        skip_decode).top_ks[i]? = top_ks[i]? ∧
    (setup_topk_runtime_args K batch_size top_k top_ks ksz top_p top_ps psz
        skip_decode).top_ps[i]? = top_ps[i]? ∧
    (setup_topk_runtime_args K batch_size top_k top_ks ksz top_p top_ps psz
        skip_decode).skip_decode[i]? = skip_decode[i]? := by
  have h := loop_invariant K top_k ksz top_p psz ⟨top_ks, top_ps, skip_decode⟩ batch_size.toNat
  exact h.2.2.2.1 i (by omega)

/-- Every request index below `batch_size` holds the resolved triple of its raw
pair. -/
theorem setup_topk_runtime_args_at (K : Nat) (batch_size : Int) (top_k : Nat)
    (top_ks : List Nat) (ksz : Int) (top_p : F32) (top_ps : List F32) (psz : Int)
    (skip_decode : List Bool) (i : Nat) (hi : (i : Int) < batch_size) :
    (i < top_ks.length →
      (setup_topk_runtime_args K batch_size top_k top_ks ksz top_p top_ps psz
        skip_decode).top_ks[i]?
        = some (resolve_request K (raw_k top_k top_ks ksz i) (raw_p top_p top_ps psz i)).1) ∧
    (i < top_ps.length →
      (setup_topk_runtime_args K batch_size top_k top_ks ksz top_p top_ps psz
        skip_decode).top_ps[i]?
        = some (resolve_request K (raw_k top_k top_ks ksz i) (raw_p top_p top_ps psz i)).2.1) ∧
    (i < skip_decode.length →
      (setup_topk_runtime_args K batch_size top_k top_ks ksz top_p top_ps psz
        skip_decode).skip_decode[i]?
        = some (resolve_request K (raw_k top_k top_ks ksz i) (raw_p top_p top_ps psz i)).2.2) := by
  have h := loop_invariant K top_k ksz top_p psz ⟨top_ks, top_ps, skip_decode⟩ batch_size.toNat
  exact h.2.2.2.2 i (by omega)

/-- Range of the resolved values: every stored `k` is at most `TOP_K_MAX`, and
every stored `p` whose raw value is not NaN lies in `[0, 1]`. -/
theorem setup_topk_runtime_args_range (K : Nat) (batch_size : Int) (top_k : Nat)
    (top_ks : List Nat) (ksz : Int) (top_p : F32) (top_ps : List F32) (psz : Int)
    (skip_decode : List Bool) (i : Nat) (hi : (i : Int) < batch_size)
    (hks : i < top_ks.length) (hps : i < top_ps.length) :
    (∃ k, (setup_topk_runtime_args K batch_size top_k top_ks ksz top_p top_ps psz
        skip_decode).top_ks[i]? = some k ∧ k ≤ K) ∧
    (∃ p, (setup_topk_runtime_args K batch_size top_k top_ks ksz top_p top_ps psz
        skip_decode).top_ps[i]? = some p ∧
        ((raw_p top_p top_ps psz i).isNaN = false →
          F32.le F32.zero p = true ∧ F32.le p F32.one = true)) := by
  have h := setup_topk_runtime_args_at K batch_size top_k top_ks ksz top_p top_ps psz
    skip_decode i hi
  exact ⟨⟨_, h.1 hks, resolve_request_top_k_le _ _ _⟩,
    ⟨_, h.2.1 hps, fun hn => resolve_request_top_p_in_unit _ _ _ hn⟩⟩

/-! ## Claims on `setup_topk_runtime_args` -/

/-- C1 (evaluation at the failing input): with `batch_size = 1`, a scalar
`top_k = 5` and a scalar `top_p = NaN`, `setup_topk_runtime_args<1024>` stores
`top_ks[0] = 5 ≤ 1024` but stores the NaN unchanged in `top_ps[0]`, and that
value satisfies neither `0 <= top_ps[0]` nor `top_ps[0] <= 1`. -/
theorem top_p_nan_passes_clip :
    (setup_topk_runtime_args 1024 1 5 [0] 1 F32.qNaN [F32.zero] 1 [false]).top_ks = [5] ∧
    (setup_topk_runtime_args 1024 1 5 [0] 1 F32.qNaN [F32.zero] 1 [false]).top_ps
      = [F32.qNaN] ∧
    F32.le F32.zero F32.qNaN = false ∧ F32.le F32.qNaN F32.one = false := by
  decide

/-- C2: for `TOP_K_MAX ≥ 1` and every request index `i` below `batch_size` that
the buffers hold, the flag written to `skip_decode[i]` is `true` exactly when
the value written to `top_ks[i]` is `0`; and the flag is not a function of the
raw `k`: a scalar raw `k = 0` gives `false` with `p = 0.0` and `true` with
`p = 0.3`. -/
theorem skip_decode_iff_resolved_top_k_zero (K : Nat) (hK : 1 ≤ K) (batch_size : Int)
    (top_k : Nat) (top_ks : List Nat) (top_ks_size : Int) (top_p : F32) (top_ps : List F32)
    (top_ps_size : Int) (skip_decode : List Bool) (i : Nat) (hi : (i : Int) < batch_size)
    (hks : i < top_ks.length) (hsk : i < skip_decode.length) :
    ((setup_topk_runtime_args K batch_size top_k top_ks top_ks_size top_p top_ps top_ps_size
        skip_decode).skip_decode[i]? = some true ↔
      (setup_topk_runtime_args K batch_size top_k top_ks top_ks_size top_p top_ps top_ps_size
        skip_decode).top_ks[i]? = some 0) ∧
    (setup_topk_runtime_args K 1 0 [0] 1 F32.zero [F32.zero] 1 [true]).skip_decode[0]?
      = some false ∧
    (setup_topk_runtime_args K 1 0 [0] 1 F32.point3 [F32.zero] 1 [false]).skip_decode[0]?
      = some true := by
  have h := setup_topk_runtime_args_at K batch_size top_k top_ks top_ks_size top_p top_ps
    top_ps_size skip_decode i hi
  refine ⟨?_, ?_, ?_⟩
  · rw [h.1 hks, h.2.2 hsk]
    simp only [Option.some.injEq]
    exact resolve_request_skip_iff K hK _ _
  · have h0 := (setup_topk_runtime_args_at K 1 0 [0] 1 F32.zero [F32.zero] 1 [true] 0
      (by decide)).2.2 (by decide)
    rw [h0]
    have hr : raw_k 0 [0] 1 0 = 0 := by decide
    have hp : raw_p F32.zero [F32.zero] 1 0 = F32.zero := by decide
    rw [hr, hp, resolve_request_zero_zero K hK F32.zero (by decide)]
  · have h0 := (setup_topk_runtime_args_at K 1 0 [0] 1 F32.point3 [F32.zero] 1 [false] 0
      (by decide)).2.2 (by decide)
    rw [h0]
    have hr : raw_k 0 [0] 1 0 = 0 := by decide
    have hp : raw_p F32.point3 [F32.zero] 1 0 = F32.point3 := by decide
    rw [hr, hp, (resolve_request_zero_nonzero K F32.point3 (by decide)).2]

/-- Witness for C2: two requests with per-element raw values `k = [0, 7]`,
`p = [0.3, 0.0]`, at request 0 (skipped, resolved `k = 0`). -/
theorem skip_decode_iff_resolved_top_k_zero_witness :
    ((setup_topk_runtime_args 1024 2 0 [0, 7] 2 F32.zero [F32.point3, F32.zero] 2
        [false, false]).skip_decode[0]? = some true ↔
      (setup_topk_runtime_args 1024 2 0 [0, 7] 2 F32.zero [F32.point3, F32.zero] 2
        [false, false]).top_ks[0]? = some 0) ∧
    (setup_topk_runtime_args 1024 1 0 [0] 1 F32.zero [F32.zero] 1 [true]).skip_decode[0]?
      = some false ∧
    (setup_topk_runtime_args 1024 1 0 [0] 1 F32.point3 [F32.zero] 1 [false]).skip_decode[0]?
      = some true :=
  skip_decode_iff_resolved_top_k_zero 1024 (by decide) 2 0 [0, 7] 2 F32.zero
    [F32.point3, F32.zero] 2 [false, false] 0 (by decide) (by decide) (by decide)

/-- C3: compatibility remap of `setup_topk_runtime_args<1024>` at every request
index `i` below `batch_size` that the buffers hold. A raw pair with `k = 0`
and `p == 0.0f` is stored as `k = 1`, `skip = false`; a raw pair with `k > 0`
and `p == 0.0f` is stored as `k = min(k, 1024)`, `p = 1.0`, `skip = false`; a
raw pair with `k = 0` and `p != 0.0f` is stored as `k = 0`, `skip = true`. -/
theorem compatibility_remap (batch_size : Int) (top_k : Nat) (top_ks : List Nat)
    (top_ks_size : Int) (top_p : F32) (top_ps : List F32) (top_ps_size : Int)
    (skip_decode : List Bool) (i : Nat) (hi : (i : Int) < batch_size)
    (hks : i < top_ks.length) (hps : i < top_ps.length) (hsk : i < skip_decode.length) :
    (raw_k top_k top_ks top_ks_size i = 0 →
      F32.eq (raw_p top_p top_ps top_ps_size i) F32.zero = true →
      (setup_topk_runtime_args 1024 batch_size top_k top_ks top_ks_size top_p top_ps
        top_ps_size skip_decode).top_ks[i]? = some 1 ∧
      (setup_topk_runtime_args 1024 batch_size top_k top_ks top_ks_size top_p top_ps
        top_ps_size skip_decode).skip_decode[i]? = some false) ∧
    (0 < raw_k top_k top_ks top_ks_size i →
      F32.eq (raw_p top_p top_ps top_ps_size i) F32.zero = true →
      (setup_topk_runtime_args 1024 batch_size top_k top_ks top_ks_size top_p top_ps
        top_ps_size skip_decode).top_ks[i]? = some (min (raw_k top_k top_ks top_ks_size i) 1024) ∧
      (setup_topk_runtime_args 1024 batch_size top_k top_ks top_ks_size top_p top_ps
        top_ps_size skip_decode).top_ps[i]? = some F32.one ∧
      (setup_topk_runtime_args 1024 batch_size top_k top_ks top_ks_size top_p top_ps
        top_ps_size skip_decode).skip_decode[i]? = some false) ∧
    (raw_k top_k top_ks top_ks_size i = 0 →
      F32.ne (raw_p top_p top_ps top_ps_size i) F32.zero = true →
      (setup_topk_runtime_args 1024 batch_size top_k top_ks top_ks_size top_p top_ps
        top_ps_size skip_decode).top_ks[i]? = some 0 ∧
      (setup_topk_runtime_args 1024 batch_size top_k top_ks top_ks_size top_p top_ps
        top_ps_size skip_decode).skip_decode[i]? = some true) := by
  have h := setup_topk_runtime_args_at 1024 batch_size top_k top_ks top_ks_size top_p top_ps
    top_ps_size skip_decode i hi
  rw [h.1 hks, h.2.1 hps, h.2.2 hsk]
  refine ⟨fun hk hp => ?_, fun hk hp => ?_, fun hk hp => ?_⟩
  · rw [hk, resolve_request_zero_zero 1024 (by decide) _ hp]
    exact ⟨rfl, rfl⟩
  · rw [resolve_request_pos_zero 1024 _ hk _ hp]
    refine ⟨?_, rfl, rfl⟩
    simp only [Option.some.injEq]
    by_cases hgt : raw_k top_k top_ks top_ks_size i > 1024
    · rw [if_pos hgt]; omega
    · rw [if_neg hgt]; omega
  · rw [hk]
    have h0 := resolve_request_zero_nonzero 1024 _ hp
    rw [h0.1, h0.2]
    exact ⟨rfl, rfl⟩

/-- Witness for C3: the three pairs of the claim as one batch, `k = [0, 5, 0]`
and `p = [0.0, 0.0, 0.3]`: request 0 gets `k = 1` and is sampled, request 1
keeps `k = 5` with `p = 1.0` and is sampled, request 2 keeps `k = 0` and is
skipped. -/
theorem compatibility_remap_witness :
    ((setup_topk_runtime_args 1024 3 0 [0, 5, 0] 3 F32.zero [F32.zero, F32.zero, F32.point3] 3
        [true, true, false]).top_ks[0]? = some 1 ∧
      (setup_topk_runtime_args 1024 3 0 [0, 5, 0] 3 F32.zero [F32.zero, F32.zero, F32.point3] 3
        [true, true, false]).skip_decode[0]? = some false) ∧
    ((setup_topk_runtime_args 1024 3 0 [0, 5, 0] 3 F32.zero [F32.zero, F32.zero, F32.point3] 3
        [true, true, false]).top_ks[1]? = some (min (raw_k 0 [0, 5, 0] 3 1) 1024) ∧
      (setup_topk_runtime_args 1024 3 0 [0, 5, 0] 3 F32.zero [F32.zero, F32.zero, F32.point3] 3
        [true, true, false]).top_ps[1]? = some F32.one ∧
      (setup_topk_runtime_args 1024 3 0 [0, 5, 0] 3 F32.zero [F32.zero, F32.zero, F32.point3] 3
        [true, true, false]).skip_decode[1]? = some false) ∧
    ((setup_topk_runtime_args 1024 3 0 [0, 5, 0] 3 F32.zero [F32.zero, F32.zero, F32.point3] 3
        [true, true, false]).top_ks[2]? = some 0 ∧
      (setup_topk_runtime_args 1024 3 0 [0, 5, 0] 3 F32.zero [F32.zero, F32.zero, F32.point3] 3
        [true, true, false]).skip_decode[2]? = some true) ∧
    min (raw_k 0 [0, 5, 0] 3 1) 1024 = 5 :=
  ⟨(compatibility_remap 3 0 [0, 5, 0] 3 F32.zero [F32.zero, F32.zero, F32.point3] 3
      [true, true, false] 0 (by decide) (by decide) (by decide) (by decide)).1
      (by decide) (by decide),
   (compatibility_remap 3 0 [0, 5, 0] 3 F32.zero [F32.zero, F32.zero, F32.point3] 3
      [true, true, false] 1 (by decide) (by decide) (by decide) (by decide)).2.1
      (by decide) (by decide),
   (compatibility_remap 3 0 [0, 5, 0] 3 F32.zero [F32.zero, F32.zero, F32.point3] 3
      [true, true, false] 2 (by decide) (by decide) (by decide) (by decide)).2.2
      (by decide) (by decide),
   by decide⟩

/-- C4: clamp of `setup_topk_runtime_args<1024>` at every request index `i`
below `batch_size` that the buffers hold. A raw `k > 1024` is stored as `1024`
and a raw `k` in `[1, 1024]` is stored unchanged; a raw `p > 1` is stored as
`1.0`, a raw `p < 0` is stored as `0.0`, and a raw `p` with `0 < p <= 1` is
stored unchanged. -/
theorem clamp_correct (batch_size : Int) (top_k : Nat) (top_ks : List Nat)
    (top_ks_size : Int) (top_p : F32) (top_ps : List F32) (top_ps_size : Int)
    (skip_decode : List Bool) (i : Nat) (hi : (i : Int) < batch_size)
    (hks : i < top_ks.length) (hps : i < top_ps.length) :
    (1024 < raw_k top_k top_ks top_ks_size i →
      (setup_topk_runtime_args 1024 batch_size top_k top_ks top_ks_size top_p top_ps
        top_ps_size skip_decode).top_ks[i]? = some 1024) ∧
    (1 ≤ raw_k top_k top_ks top_ks_size i → raw_k top_k top_ks top_ks_size i ≤ 1024 →
      (setup_topk_runtime_args 1024 batch_size top_k top_ks top_ks_size top_p top_ps
        top_ps_size skip_decode).top_ks[i]? = some (raw_k top_k top_ks top_ks_size i)) ∧
    (F32.gt (raw_p top_p top_ps top_ps_size i) F32.one = true →
      (setup_topk_runtime_args 1024 batch_size top_k top_ks top_ks_size top_p top_ps
        top_ps_size skip_decode).top_ps[i]? = some F32.one) ∧
    (F32.lt (raw_p top_p top_ps top_ps_size i) F32.zero = true →
      (setup_topk_runtime_args 1024 batch_size top_k top_ks top_ks_size top_p top_ps
        top_ps_size skip_decode).top_ps[i]? = some F32.zero) ∧
    (F32.gt (raw_p top_p top_ps top_ps_size i) F32.zero = true →
      F32.le (raw_p top_p top_ps top_ps_size i) F32.one = true →
      (setup_topk_runtime_args 1024 batch_size top_k top_ks top_ks_size top_p top_ps
        top_ps_size skip_decode).top_ps[i]? = some (raw_p top_p top_ps top_ps_size i)) := by
  have h := setup_topk_runtime_args_at 1024 batch_size top_k top_ks top_ks_size top_p top_ps
    top_ps_size skip_decode i hi
  rw [h.1 hks, h.2.1 hps]
  refine ⟨fun hk => ?_, fun hk1 hk2 => ?_, fun hp => ?_, fun hp => ?_, fun hp0 hp1 => ?_⟩
  · rw [resolve_request_top_k_of_pos 1024 _ (by omega), if_pos hk]
  · rw [resolve_request_top_k_of_pos 1024 _ (by omega), if_neg (by omega)]
  · rw [resolve_request_top_p_of_gt_one 1024 _ _ hp]
  · rw [resolve_request_top_p_of_lt_zero 1024 _ _ hp]
  · rw [resolve_request_top_p_of_in_range 1024 _ _ hp0 hp1]

/-- Witness for C4: the batch `k = [2000, 3, 1024]`, `p = [1.7, -0.2, 0.3]`:
`2000` is stored as `1024`, `3` is kept, `1.7` is stored as `1.0`, `-0.2` is
stored as `0.0`, and `0.3` is kept. -/
theorem clamp_correct_witness :
    (setup_topk_runtime_args 1024 3 0 [2000, 3, 1024] 3 F32.zero
        [F32.onePoint7, F32.negPoint2, F32.point3] 3 [false, false, false]).top_ks[0]?
      = some 1024 ∧
    (setup_topk_runtime_args 1024 3 0 [2000, 3, 1024] 3 F32.zero
        [F32.onePoint7, F32.negPoint2, F32.point3] 3 [false, false, false]).top_ks[1]?
      = some (raw_k 0 [2000, 3, 1024] 3 1) ∧
    (setup_topk_runtime_args 1024 3 0 [2000, 3, 1024] 3 F32.zero
        [F32.onePoint7, F32.negPoint2, F32.point3] 3 [false, false, false]).top_ps[0]?
      = some F32.one ∧
    (setup_topk_runtime_args 1024 3 0 [2000, 3, 1024] 3 F32.zero
        [F32.onePoint7, F32.negPoint2, F32.point3] 3 [false, false, false]).top_ps[1]?
      = some F32.zero ∧
    (setup_topk_runtime_args 1024 3 0 [2000, 3, 1024] 3 F32.zero
        [F32.onePoint7, F32.negPoint2, F32.point3] 3 [false, false, false]).top_ps[2]?
      = some (raw_p F32.zero [F32.onePoint7, F32.negPoint2, F32.point3] 3 2) ∧
    raw_k 0 [2000, 3, 1024] 3 1 = 3 ∧
    raw_p F32.zero [F32.onePoint7, F32.negPoint2, F32.point3] 3 2 = F32.point3 :=
  ⟨(clamp_correct 3 0 [2000, 3, 1024] 3 F32.zero [F32.onePoint7, F32.negPoint2, F32.point3] 3
      [false, false, false] 0 (by decide) (by decide) (by decide)).1 (by decide),
   (clamp_correct 3 0 [2000, 3, 1024] 3 F32.zero [F32.onePoint7, F32.negPoint2, F32.point3] 3
      [false, false, false] 1 (by decide) (by decide) (by decide)).2.1 (by decide) (by decide),
   (clamp_correct 3 0 [2000, 3, 1024] 3 F32.zero [F32.onePoint7, F32.negPoint2, F32.point3] 3
      [false, false, false] 0 (by decide) (by decide) (by decide)).2.2.1 (by decide),
   (clamp_correct 3 0 [2000, 3, 1024] 3 F32.zero [F32.onePoint7, F32.negPoint2, F32.point3] 3
      [false, false, false] 1 (by decide) (by decide) (by decide)).2.2.2.1 (by decide),
   (clamp_correct 3 0 [2000, 3, 1024] 3 F32.zero [F32.onePoint7, F32.negPoint2, F32.point3] 3
      [false, false, false] 2 (by decide) (by decide) (by decide)).2.2.2.2
      (by decide) (by decide),
   by decide, by decide⟩

end turbomind

namespace turbomind

/-! ## Offsets of `runSampling` -/

theorem int_checked_of_range (x : Int) (h0 : 0 ≤ x) (h1 : x ≤ 2147483647) :
    int_checked x = some x := by
  unfold int_checked
  rw [if_pos ⟨by omega, h1⟩]

theorem int_checked_eq_some (x r : Int) (h : int_checked x = some r) : r = x := by
  unfold int_checked at h
  split at h
  · exact (Option.some.inj h).symm
  · exact absurd h (by simp)

/-- Whenever the offsets are computed they are the exact products and sum. -/
theorem runSampling_offsets_eq (batch_size local_batch_size ite step : Int)
    (o : SamplingOffsets)
    (h : runSampling_offsets batch_size local_batch_size ite step = some o) :
    o = ⟨step * batch_size + ite * local_batch_size, ite * local_batch_size,
      ite * local_batch_size, ite * local_batch_size, ite * local_batch_size⟩ := by
  unfold runSampling_offsets output_ids_offset param_offset int_mul int_add at h
  cases h1 : int_checked (step * batch_size) with
  | none => rw [h1] at h; exact absurd h (by simp)
  | some a =>
    cases h2 : int_checked (ite * local_batch_size) with
    | none => rw [h1, h2] at h; exact absurd h (by simp)
    | some b =>
      cases h3 : int_checked (a + b) with
      | none => rw [h1, h2] at h; simp [h3] at h
      | some c =>
        rw [h1, h2] at h
        simp only [Option.some_bind, h3, Option.some.injEq] at h
        have ha := int_checked_eq_some _ _ h1
        have hb := int_checked_eq_some _ _ h2
        have hc := int_checked_eq_some _ _ h3
        rw [← h, hc, ha, hb]

/-- The offsets are computed whenever the two products and the sum fit in `int`. -/
theorem runSampling_offsets_defined (batch_size local_batch_size ite step : Int)
    (h1 : 0 ≤ step * batch_size) (h2 : 0 ≤ ite * local_batch_size)
    (h3 : step * batch_size + ite * local_batch_size ≤ 2147483647) :
    runSampling_offsets batch_size local_batch_size ite step =
      some ⟨step * batch_size + ite * local_batch_size, ite * local_batch_size,
        ite * local_batch_size, ite * local_batch_size, ite * local_batch_size⟩ := by
  unfold runSampling_offsets output_ids_offset param_offset int_mul int_add
  rw [int_checked_of_range _ h1 (by omega), int_checked_of_range _ h2 (by omega)]
  simp only [Option.some_bind]
  rw [int_checked_of_range _ (by omega) h3]
  simp only [Option.some_bind]

/-- Windows of width `L` at `a + j * L`, `j < n`, tile `[a, a + n * L)`. -/
theorem windows_cover (a L : Int) (n : Nat) (hL : 0 ≤ L) (x : Int) :
    (a ≤ x ∧ x < a + (n : Int) * L) ↔
      ∃ j : Nat, j < n ∧ a + (j : Int) * L ≤ x ∧ x < a + (j : Int) * L + L := by
  constructor
  · rintro ⟨h1, h2⟩
    have hLpos : 0 < L := by
      rcases eq_or_lt_of_le hL with h | h
      · rw [← h] at h2; simp at h2; omega
      · exact h
    have hq0 : 0 ≤ (x - a) / L := Int.ediv_nonneg (by omega) hL
    have hq1 : (x - a) / L * L ≤ x - a := Int.ediv_mul_le _ (by omega)
    have hq2 : x - a < ((x - a) / L + 1) * L := Int.lt_ediv_add_one_mul_self _ hLpos
    have hq3 : (x - a) / L < (n : Int) := Int.ediv_lt_of_lt_mul hLpos (by omega)
    refine ⟨((x - a) / L).toNat, by omega, ?_, ?_⟩
    · rw [Int.toNat_of_nonneg hq0]; omega
    · rw [Int.toNat_of_nonneg hq0]
      have : ((x - a) / L + 1) * L = (x - a) / L * L + L := by ring
      omega
  · rintro ⟨j, hj, h1, h2⟩
    have hjL : 0 ≤ (j : Int) * L := Int.mul_nonneg (by omega) hL
    have hle : ((j : Int) + 1) * L ≤ (n : Int) * L :=
      Int.mul_le_mul_of_nonneg_right (by omega) hL
    have : ((j : Int) + 1) * L = (j : Int) * L + L := by ring
    omega

/-- Two windows with different indices share no position. -/
theorem windows_disjoint (a L : Int) (hL : 0 ≤ L) (j k : Nat) (hjk : j ≠ k) (x : Int) :
    ¬ ((a + (j : Int) * L ≤ x ∧ x < a + (j : Int) * L + L) ∧
       (a + (k : Int) * L ≤ x ∧ x < a + (k : Int) * L + L)) := by
  rintro ⟨⟨h1, h2⟩, h3, h4⟩
  rcases Nat.lt_or_gt_of_ne hjk with h | h
  · have hle : ((j : Int) + 1) * L ≤ (k : Int) * L :=
      Int.mul_le_mul_of_nonneg_right (by omega) hL
    have : ((j : Int) + 1) * L = (j : Int) * L + L := by ring
    omega
  · have hle : ((k : Int) + 1) * L ≤ (j : Int) * L :=
      Int.mul_le_mul_of_nonneg_right (by omega) hL
    have : ((k : Int) + 1) * L = (k : Int) * L + L := by ring
    omega

end turbomind

namespace turbomind

/-- C8: offsets of `runSampling`. Whenever the four `int` locals give offsets
at all (no signed overflow), the `output_ids` offset is
`step * batch_size + ite * local_batch_size` and the offset into the `k`, `p`,
skip and random-state buffers is `ite * local_batch_size`. When moreover
`batch_size = n * local_batch_size`, `step ≥ 0`, `local_batch_size ≥ 0` and row
`step` ends within the `int` range, the offsets of iterations `0..n-1` are all
computed, their `output_ids` windows of width `local_batch_size` are pairwise
disjoint and cover exactly `[step * batch_size, (step + 1) * batch_size)`, and
their parameter windows are pairwise disjoint and cover exactly
`[0, batch_size)`. -/
theorem runSampling_offsets_correct (step ite local_batch_size batch_size : Int) (n : Nat) :
    (∀ o, runSampling_offsets batch_size local_batch_size ite step = some o →
      o.output_ids = step * batch_size + ite * local_batch_size ∧
      o.runtime_top_k_buf = ite * local_batch_size ∧
      o.runtime_top_p_buf = ite * local_batch_size ∧
      o.skip_decode_buf = ite * local_batch_size ∧
      o.curand_state = ite * local_batch_size) ∧
    (0 ≤ step → 0 ≤ local_batch_size → batch_size = (n : Int) * local_batch_size →
      (step + 1) * batch_size ≤ 2147483647 →
      (∀ j : Nat, j < n →
        runSampling_offsets batch_size local_batch_size (j : Int) step =
          some ⟨step * batch_size + (j : Int) * local_batch_size,
            (j : Int) * local_batch_size, (j : Int) * local_batch_size,
            (j : Int) * local_batch_size, (j : Int) * local_batch_size⟩) ∧
      (∀ x : Int, (step * batch_size ≤ x ∧ x < (step + 1) * batch_size) ↔
        ∃ j : Nat, j < n ∧ ∃ o,
          runSampling_offsets batch_size local_batch_size (j : Int) step = some o ∧
          o.output_ids ≤ x ∧ x < o.output_ids + local_batch_size) ∧
      (∀ j k : Nat, j < n → k < n → j ≠ k → ∀ o o',
        runSampling_offsets batch_size local_batch_size (j : Int) step = some o →
        runSampling_offsets batch_size local_batch_size (k : Int) step = some o' →
        ∀ x : Int, ¬ ((o.output_ids ≤ x ∧ x < o.output_ids + local_batch_size) ∧
          (o'.output_ids ≤ x ∧ x < o'.output_ids + local_batch_size))) ∧
      (∀ x : Int, (0 ≤ x ∧ x < batch_size) ↔
        ∃ j : Nat, j < n ∧ ∃ o,
          runSampling_offsets batch_size local_batch_size (j : Int) step = some o ∧
          o.runtime_top_k_buf ≤ x ∧ x < o.runtime_top_k_buf + local_batch_size) ∧
      (∀ j k : Nat, j < n → k < n → j ≠ k → ∀ o o',
        runSampling_offsets batch_size local_batch_size (j : Int) step = some o →
        runSampling_offsets batch_size local_batch_size (k : Int) step = some o' →
        ∀ x : Int, ¬ ((o.runtime_top_k_buf ≤ x ∧ x < o.runtime_top_k_buf + local_batch_size) ∧
          (o'.runtime_top_k_buf ≤ x ∧ x < o'.runtime_top_k_buf + local_batch_size)))) := by
  refine ⟨fun o ho => ?_, fun hs hL hB hfit => ?_⟩
  · rw [runSampling_offsets_eq _ _ _ _ o ho]
    exact ⟨rfl, rfl, rfl, rfl, rfl⟩
  · have hB0 : 0 ≤ batch_size := by rw [hB]; exact Int.mul_nonneg (by omega) hL
    have hsB : 0 ≤ step * batch_size := Int.mul_nonneg hs hB0
    have hrow : (step + 1) * batch_size = step * batch_size + (n : Int) * local_batch_size := by
      rw [← hB]; ring
    have hdef : ∀ j : Nat, j < n →
        runSampling_offsets batch_size local_batch_size (j : Int) step =
          some ⟨step * batch_size + (j : Int) * local_batch_size,
            (j : Int) * local_batch_size, (j : Int) * local_batch_size,
            (j : Int) * local_batch_size, (j : Int) * local_batch_size⟩ := by
      intro j hj
      have hjL : 0 ≤ (j : Int) * local_batch_size := Int.mul_nonneg (by omega) hL
      have hle : (j : Int) * local_batch_size ≤ (n : Int) * local_batch_size :=
        Int.mul_le_mul_of_nonneg_right (by omega) hL
      exact runSampling_offsets_defined _ _ _ _ hsB hjL (by omega)
    refine ⟨hdef, ?_, ?_, ?_, ?_⟩
    · intro x
      rw [hrow, windows_cover (step * batch_size) local_batch_size n hL x]
      constructor
      · rintro ⟨j, hj, h1, h2⟩
        exact ⟨j, hj, _, hdef j hj, h1, h2⟩
      · rintro ⟨j, hj, o, ho, h1, h2⟩
        rw [hdef j hj] at ho
        cases ho
        exact ⟨j, hj, h1, h2⟩
    · intro j k hj hk hjk o o' ho ho' x
      rw [hdef j hj] at ho
      rw [hdef k hk] at ho'
      cases ho
      cases ho'
      exact windows_disjoint (step * batch_size) local_batch_size hL j k hjk x
    · intro x
      have hc : (0 ≤ x ∧ x < batch_size) ↔
          ∃ j : Nat, j < n ∧ (j : Int) * local_batch_size ≤ x ∧
            x < (j : Int) * local_batch_size + local_batch_size := by
        have hw := windows_cover 0 local_batch_size n hL x
        simp only [zero_add] at hw
        rw [hB]
        exact hw
      rw [hc]
      constructor
      · rintro ⟨j, hj, h1, h2⟩
        exact ⟨j, hj, _, hdef j hj, h1, h2⟩
      · rintro ⟨j, hj, o, ho, h1, h2⟩
        rw [hdef j hj] at ho
        cases ho
        exact ⟨j, hj, h1, h2⟩
    · intro j k hj hk hjk o o' ho ho' x
      rw [hdef j hj] at ho
      rw [hdef k hk] at ho'
      cases ho
      cases ho'
      have hd := windows_disjoint 0 local_batch_size hL j k hjk x
      simpa only [zero_add] using hd

/-- Witness for C8: `ite = 2`, `local_batch_size = 4`, `step = 7`,
`batch_size = 16 = 4 * 4`: the `output_ids` offset is `120` and the parameter
offset is `8`. -/
theorem runSampling_offsets_correct_witness :
    runSampling_offsets 16 4 2 7 = some ⟨120, 8, 8, 8, 8⟩ ∧
    ((0 : Int) ≤ 7 ∧ (0 : Int) ≤ 4 ∧ (16 : Int) = ((4 : Nat) : Int) * 4 ∧
      ((7 : Int) + 1) * 16 ≤ 2147483647) :=
  ⟨((runSampling_offsets_correct 7 2 4 16 4).2 (by decide) (by decide) (by decide)
      (by decide)).1 2 (by decide),
   by decide, by decide, by decide, by decide⟩

end turbomind

namespace turbomind

/-! ## `setup` -/

/-- On the skip-all path `setup` only sets `skip_all_`. -/
theorem setup_of_skip_all {β : Type} (c : Collaborators β) (batch_size beam_width : Nat)
    (runtime_args : RuntimeArgs) (s : TopKSamplingLayer β)
    (h : setup_skip_all runtime_args = true) :
    setup c batch_size beam_width runtime_args s = Except.ok { s with skip_all_ := true } := by
  unfold setup
  simp only [h, if_true]

/-- The base call keeps the host vectors, `skip_decode_` and
`runtime_max_top_k_`, and leaves the workspace sized for the call's own
`runtime_top_k`. -/
theorem BaseSamplingLayer_setup_fields {β : Type} (c : Collaborators β)
    (batch_size beam_width : Nat) (runtime_args : RuntimeArgs) (s s1 : TopKSamplingLayer β)
    (h : BaseSamplingLayer_setup c batch_size beam_width runtime_args s = some s1) :
    s1.h_runtime_top_k_ = s.h_runtime_top_k_ ∧
    s1.h_runtime_top_p_ = s.h_runtime_top_p_ ∧
    s1.skip_decode_ = s.skip_decode_ ∧
    s1.runtime_max_top_k_ = s.runtime_max_top_k_ ∧
    s1.sampling_workspace_size_ = c.workspace_size
      (allocateBuffer_max_top_k (runtime_args.runtime_top_k.getD [])) batch_size ∧
    s1.sampling_workspace_ = c.workspace_size
      (allocateBuffer_max_top_k (runtime_args.runtime_top_k.getD [])) batch_size := by
  unfold BaseSamplingLayer_setup at h
  cases hb : c.base_setup batch_size beam_width runtime_args
      (c.base_allocateBuffer batch_size (runtime_args.runtime_top_k.getD [])
        (runtime_args.runtime_top_p.getD []) s.base) with
  | none => simp only [hb] at h; exact absurd h (by simp)
  | some base =>
    simp only [hb, Option.some.injEq] at h
    rw [← h]
    exact ⟨rfl, rfl, rfl, rfl, rfl, rfl⟩

/-- Off the skip-all path a successful `setup` ran the base setup, passed both
size checks, and stored the resolved buffers. -/
theorem setup_of_not_skip_all {β : Type} (c : Collaborators β) (batch_size beam_width : Nat)
    (runtime_args : RuntimeArgs) (s s' : TopKSamplingLayer β)
    (h : setup_skip_all runtime_args = false)
    (hok : setup c batch_size beam_width runtime_args s = Except.ok s') :
    ∃ s1, BaseSamplingLayer_setup c batch_size beam_width runtime_args s = some s1 ∧
      ¬ ((runtime_args.runtime_top_k.getD []).length > 1 ∧
          (runtime_args.runtime_top_k.getD []).length ≠ batch_size) ∧
      ¬ ((runtime_args.runtime_top_p.getD []).length > 1 ∧
          (runtime_args.runtime_top_p.getD []).length ≠ batch_size) ∧
      s' = { s1 with
        skip_all_ := false
        h_runtime_top_k_ := (setup_resolved batch_size runtime_args s1).top_ks
        h_runtime_top_p_ := (setup_resolved batch_size runtime_args s1).top_ps
        skip_decode_ := (setup_resolved batch_size runtime_args s1).skip_decode
        runtime_max_top_k_ :=
          max_element_deref (setup_resolved batch_size runtime_args s1).top_ks batch_size
        runtime_top_k_buf_ := cudaAutoCpy s1.runtime_top_k_buf_
          (setup_resolved batch_size runtime_args s1).top_ks batch_size
        runtime_top_p_buf_ := cudaAutoCpy s1.runtime_top_p_buf_
          (setup_resolved batch_size runtime_args s1).top_ps batch_size
        skip_decode_buf_ := cudaAutoCpy s1.skip_decode_buf_
          (setup_resolved batch_size runtime_args s1).skip_decode batch_size } := by
  unfold setup at hok
  simp only [h, Bool.false_eq_true, if_false] at hok
  cases hb : BaseSamplingLayer_setup c batch_size beam_width runtime_args s with
  | none => simp [hb] at hok
  | some s1 =>
    simp only [hb] at hok
    by_cases hk : (runtime_args.runtime_top_k.getD []).length > 1 ∧
        (runtime_args.runtime_top_k.getD []).length ≠ batch_size
    · rw [if_pos hk] at hok
      exact absurd hok (by simp)
    · by_cases hp : (runtime_args.runtime_top_p.getD []).length > 1 ∧
          (runtime_args.runtime_top_p.getD []).length ≠ batch_size
      · simp only [if_neg hk, if_pos hp] at hok
        exact absurd hok (by simp)
      · simp only [if_neg hk, if_neg hp, Except.ok.injEq] at hok
        refine ⟨s1, rfl, hk, hp, ?_⟩
        rw [← hok]
        rfl

/-- The call made by `setup`, spelled out. -/
theorem setup_resolved_eq {β : Type} (batch_size : Nat) (runtime_args : RuntimeArgs)
    (s : TopKSamplingLayer β) :
    setup_resolved batch_size runtime_args s =
      setup_topk_runtime_args 1024 (int_of_size_t batch_size)
        (if (runtime_args.runtime_top_k.getD []).length > 0 then
          tensor_getVal (runtime_args.runtime_top_k.getD []) else 0)
        (setup_staged_top_k batch_size runtime_args s)
        (int_of_size_t (runtime_args.runtime_top_k.getD []).length)
        (if (runtime_args.runtime_top_p.getD []).length > 0 then
          tensor_getVal (runtime_args.runtime_top_p.getD []) else F32.zero)
        (setup_staged_top_p batch_size runtime_args s)
        (int_of_size_t (runtime_args.runtime_top_p.getD []).length) s.skip_decode_ := rfl

/-- The resolver call depends on the layer only through the host vectors and
`skip_decode_`. -/
theorem setup_resolved_congr {β : Type} (batch_size : Nat) (runtime_args : RuntimeArgs)
    (s s1 : TopKSamplingLayer β) (hk : s1.h_runtime_top_k_ = s.h_runtime_top_k_)
    (hp : s1.h_runtime_top_p_ = s.h_runtime_top_p_) (hs : s1.skip_decode_ = s.skip_decode_) :
    setup_resolved batch_size runtime_args s1 = setup_resolved batch_size runtime_args s := by
  rw [setup_resolved_eq, setup_resolved_eq]
  unfold setup_staged_top_k setup_staged_top_p
  rw [hk, hp, hs]

/-- The fields of the state after a successful `setup` off the skip-all path. -/
theorem setup_fields_of_not_skip_all {β : Type} (c : Collaborators β)
    (batch_size beam_width : Nat) (runtime_args : RuntimeArgs) (s s' : TopKSamplingLayer β)
    (h : setup_skip_all runtime_args = false)
    (hok : setup c batch_size beam_width runtime_args s = Except.ok s') :
    s'.skip_all_ = false ∧
    s'.h_runtime_top_k_ = (setup_resolved batch_size runtime_args s).top_ks ∧
    s'.h_runtime_top_p_ = (setup_resolved batch_size runtime_args s).top_ps ∧
    s'.skip_decode_ = (setup_resolved batch_size runtime_args s).skip_decode ∧
    s'.runtime_max_top_k_
      = max_element_deref (setup_resolved batch_size runtime_args s).top_ks batch_size ∧
    s'.sampling_workspace_size_ = c.workspace_size
      (allocateBuffer_max_top_k (runtime_args.runtime_top_k.getD [])) batch_size ∧
    s'.sampling_workspace_ = c.workspace_size
      (allocateBuffer_max_top_k (runtime_args.runtime_top_k.getD [])) batch_size := by
  obtain ⟨s1, hs1, _, _, hs'⟩ :=
    setup_of_not_skip_all c batch_size beam_width runtime_args s s' h hok
  have hf := BaseSamplingLayer_setup_fields c batch_size beam_width runtime_args s s1 hs1
  have hr := setup_resolved_congr batch_size runtime_args s s1 hf.1 hf.2.1 hf.2.2.1
  rw [hr] at hs'
  cases s'
  cases s1
  simp only [TopKSamplingLayer.mk.injEq] at hs'
  simp only at hf
  exact ⟨hs'.2.1, hs'.2.2.1, hs'.2.2.2.1, hs'.2.2.2.2.1, hs'.2.2.2.2.2.1,
    hs'.2.2.2.2.2.2.2.2.2.1.trans hf.2.2.2.2.1, hs'.2.2.2.2.2.2.2.2.2.2.1.trans hf.2.2.2.2.2⟩

/-- Off the skip-all path a size mismatch aborts `setup`. -/
theorem setup_error_of_bad_size {β : Type} (c : Collaborators β) (batch_size beam_width : Nat)
    (runtime_args : RuntimeArgs) (s : TopKSamplingLayer β)
    (h : setup_skip_all runtime_args = false)
    (hbad : ((runtime_args.runtime_top_k.getD []).length > 1 ∧
          (runtime_args.runtime_top_k.getD []).length ≠ batch_size) ∨
        ((runtime_args.runtime_top_p.getD []).length > 1 ∧
          (runtime_args.runtime_top_p.getD []).length ≠ batch_size)) :
    ∃ e, setup c batch_size beam_width runtime_args s = Except.error e := by
  cases hres : setup c batch_size beam_width runtime_args s with
  | error e => exact ⟨e, rfl⟩
  | ok s' =>
    obtain ⟨_, _, hk, hp, _⟩ := setup_of_not_skip_all c batch_size beam_width runtime_args s s' h hres
    rcases hbad with hb | hb
    · exact absurd hb hk
    · exact absurd hb hp

theorem vector_resize_length {α : Type} (v : List α) (n : Nat) (d : α) :
    (vector_resize v n d).length = n := by
  unfold vector_resize
  simp only [List.length_append, List.length_take, List.length_replicate]
  omega

theorem copy_n_length {α : Type} (src dst : List α) (n : Nat) :
    (copy_n src n dst).length = min n src.length + (dst.length - n) := by
  unfold copy_n
  simp only [List.length_append, List.length_take, List.length_drop]

theorem setup_staged_top_k_length {β : Type} (batch_size : Nat) (runtime_args : RuntimeArgs)
    (s : TopKSamplingLayer β)
    (hk : ¬ ((runtime_args.runtime_top_k.getD []).length > 1 ∧
          (runtime_args.runtime_top_k.getD []).length ≠ batch_size)) :
    (setup_staged_top_k batch_size runtime_args s).length
      = max s.h_runtime_top_k_.length batch_size := by
  unfold setup_staged_top_k
  by_cases h1 : s.h_runtime_top_k_.length < batch_size
  · by_cases h2 : (runtime_args.runtime_top_k.getD []).length > 1
    · simp only [if_pos h1, if_pos h2, copy_n_length, vector_resize_length]
      omega
    · simp only [if_pos h1, if_neg h2, vector_resize_length]
      omega
  · by_cases h2 : (runtime_args.runtime_top_k.getD []).length > 1
    · simp only [if_neg h1, if_pos h2, copy_n_length]
      omega
    · simp only [if_neg h1, if_neg h2]
      omega

theorem setup_staged_top_p_length {β : Type} (batch_size : Nat) (runtime_args : RuntimeArgs)
    (s : TopKSamplingLayer β)
    (hp : ¬ ((runtime_args.runtime_top_p.getD []).length > 1 ∧
          (runtime_args.runtime_top_p.getD []).length ≠ batch_size))
    (heq : s.h_runtime_top_k_.length = s.h_runtime_top_p_.length) :
    (setup_staged_top_p batch_size runtime_args s).length
      = max s.h_runtime_top_p_.length batch_size := by
  unfold setup_staged_top_p
  by_cases h1 : s.h_runtime_top_k_.length < batch_size
  · by_cases h2 : (runtime_args.runtime_top_p.getD []).length > 1
    · simp only [if_pos h1, if_pos h2, copy_n_length, vector_resize_length]
      omega
    · simp only [if_pos h1, if_neg h2, vector_resize_length]
      omega
  · by_cases h2 : (runtime_args.runtime_top_p.getD []).length > 1
    · simp only [if_neg h1, if_pos h2, copy_n_length]
      omega
    · simp only [if_neg h1, if_neg h2]
      omega

theorem setup_resolved_length {β : Type} (batch_size : Nat) (runtime_args : RuntimeArgs)
    (s : TopKSamplingLayer β) :
    (setup_resolved batch_size runtime_args s).top_ks.length
      = (setup_staged_top_k batch_size runtime_args s).length ∧
    (setup_resolved batch_size runtime_args s).top_ps.length
      = (setup_staged_top_p batch_size runtime_args s).length := by
  have h := setup_topk_runtime_args_length 1024 (int_of_size_t batch_size)
    (if (runtime_args.runtime_top_k.getD []).length > 0 then
      tensor_getVal (runtime_args.runtime_top_k.getD []) else 0)
    (setup_staged_top_k batch_size runtime_args s)
    (int_of_size_t (runtime_args.runtime_top_k.getD []).length)
    (if (runtime_args.runtime_top_p.getD []).length > 0 then
      tensor_getVal (runtime_args.runtime_top_p.getD []) else F32.zero)
    (setup_staged_top_p batch_size runtime_args s)
    (int_of_size_t (runtime_args.runtime_top_p.getD []).length) s.skip_decode_
  exact ⟨h.1, h.2.1⟩

/-- One successful `setup` call: `h_runtime_top_k_` never shrinks and holds
`batch_size` entries off the skip-all path; with host vectors of equal length
the same is true of `h_runtime_top_p_`, and the lengths stay equal. -/
theorem setup_host_lengths {β : Type} (c : Collaborators β) (batch_size beam_width : Nat)
    (runtime_args : RuntimeArgs) (s s' : TopKSamplingLayer β)
    (hok : setup c batch_size beam_width runtime_args s = Except.ok s') :
    (s.h_runtime_top_k_.length ≤ s'.h_runtime_top_k_.length ∧
      (setup_skip_all runtime_args = false → batch_size ≤ s'.h_runtime_top_k_.length)) ∧
    (s.h_runtime_top_k_.length = s.h_runtime_top_p_.length →
      s.h_runtime_top_p_.length ≤ s'.h_runtime_top_p_.length ∧
      (setup_skip_all runtime_args = false → batch_size ≤ s'.h_runtime_top_p_.length) ∧
      s'.h_runtime_top_k_.length = s'.h_runtime_top_p_.length) := by
  cases hskip : setup_skip_all runtime_args with
  | true =>
    rw [setup_of_skip_all c batch_size beam_width runtime_args s hskip] at hok
    have hs' : s' = { s with skip_all_ := true } := (Except.ok.inj hok).symm
    have hk' : s'.h_runtime_top_k_ = s.h_runtime_top_k_ := by rw [hs']
    have hp' : s'.h_runtime_top_p_ = s.h_runtime_top_p_ := by rw [hs']
    rw [hk', hp']
    exact ⟨⟨le_rfl, fun h => absurd h (by simp)⟩,
      fun heq => ⟨le_rfl, fun h => absurd h (by simp), heq⟩⟩
  | false =>
    obtain ⟨base, _, hk, hp, _⟩ :=
      setup_of_not_skip_all c batch_size beam_width runtime_args s s' hskip hok
    obtain ⟨_, hk', hp', _⟩ :=
      setup_fields_of_not_skip_all c batch_size beam_width runtime_args s s' hskip hok
    have hlen := setup_resolved_length batch_size runtime_args s
    have hkl := setup_staged_top_k_length batch_size runtime_args s hk
    rw [hk', hp', hlen.1, hlen.2, hkl]
    refine ⟨⟨by omega, fun _ => by omega⟩, fun heq => ?_⟩
    have hpl := setup_staged_top_p_length batch_size runtime_args s hp heq
    rw [hpl]
    exact ⟨by omega, fun _ => by omega, by omega⟩

end turbomind

namespace turbomind

/-! ## Claims on `setup` -/

/-- A sequence of successful `setup` calls on host vectors of equal length never
shrinks either of them and keeps the lengths equal. -/
theorem setup_sequence_host_lengths {β : Type} (c : Collaborators β) (beam_width : Nat)
    (calls : List (Nat × RuntimeArgs)) :
    ∀ s s' : TopKSamplingLayer β,
      s.h_runtime_top_k_.length = s.h_runtime_top_p_.length →
      setup_sequence c beam_width calls s = Except.ok s' →
      s.h_runtime_top_k_.length ≤ s'.h_runtime_top_k_.length ∧
      s.h_runtime_top_p_.length ≤ s'.h_runtime_top_p_.length ∧
      s'.h_runtime_top_k_.length = s'.h_runtime_top_p_.length := by
  induction calls with
  | nil =>
    intro s s' heq hok
    have hs : s = s' := Except.ok.inj hok
    rw [← hs]
    exact ⟨le_rfl, le_rfl, heq⟩
  | cons call rest ih =>
    intro s s' heq hok
    unfold setup_sequence at hok
    cases h1 : setup c call.1 beam_width call.2 s with
    | error e => rw [h1] at hok; exact absurd hok (by simp)
    | ok s1 =>
      rw [h1] at hok
      have hstep := setup_host_lengths c call.1 beam_width call.2 s s1 h1
      have hp := hstep.2 heq
      have hrest := ih s1 s' hp.2.2 hok
      exact ⟨le_trans hstep.1.1 hrest.1, le_trans hp.1 hrest.2.1, hrest.2.2⟩

/-- The two host vectors of a reachable layer have equal length: they start
empty and lines 161-164 resize them together. -/
theorem Reachable.host_lengths_eq {β : Type} {c : Collaborators β} {s : TopKSamplingLayer β}
    (hr : Reachable c s) : s.h_runtime_top_k_.length = s.h_runtime_top_p_.length := by
  induction hr with
  | constructed s hk hp => rw [hk, hp]; rfl
  | by_allocateBuffer s batch_size top_k top_p _ ih => exact ih
  | by_setup s s' batch_size beam_width runtime_args _ hok ih =>
    exact ((setup_host_lengths c batch_size beam_width runtime_args s s' hok).2 ih).2.2

/-- C9: buffer resize monotonicity. For every reachable layer state and every
successful `setup` call, the lengths of `h_runtime_top_k_` and
`h_runtime_top_p_` after the call are at least their lengths before it; when
the call does not take the skip-all path both lengths are at least
`batch_size`; and after any further sequence of successful `setup` calls, with
any batch sizes, both are still at least their lengths before the call. -/
theorem host_buffers_never_shrink {β : Type} (c : Collaborators β)
    (s : TopKSamplingLayer β) (hr : Reachable c s)
    (batch_size beam_width : Nat) (runtime_args : RuntimeArgs) (s' : TopKSamplingLayer β)
    (hok : setup c batch_size beam_width runtime_args s = Except.ok s') :
    s.h_runtime_top_k_.length ≤ s'.h_runtime_top_k_.length ∧
    s.h_runtime_top_p_.length ≤ s'.h_runtime_top_p_.length ∧
    (setup_skip_all runtime_args = false →
      batch_size ≤ s'.h_runtime_top_k_.length ∧ batch_size ≤ s'.h_runtime_top_p_.length) ∧
    ∀ (calls : List (Nat × RuntimeArgs)) (s'' : TopKSamplingLayer β),
      setup_sequence c beam_width calls s' = Except.ok s'' →
      s.h_runtime_top_k_.length ≤ s''.h_runtime_top_k_.length ∧
      s.h_runtime_top_p_.length ≤ s''.h_runtime_top_p_.length := by
  have heq := Reachable.host_lengths_eq hr
  have h := setup_host_lengths c batch_size beam_width runtime_args s s' hok
  have hp := h.2 heq
  refine ⟨h.1.1, hp.1, fun hns => ⟨h.1.2 hns, hp.2.1 hns⟩, fun calls s'' hseq => ?_⟩
  have hrest := setup_sequence_host_lengths c beam_width calls s' s'' hp.2.2 hseq
  exact ⟨le_trans h.1.1 hrest.1, le_trans hp.1 hrest.2.1⟩

/-- Witness for C9: the concrete layer after a first `setup` with
`batch_size = 5` (both host vectors hold five entries), then a `setup` with the
smaller `batch_size = 2` off the skip-all path: both host vectors still hold
five entries, which is at least `2`. -/
theorem host_buffers_never_shrink_witness :
    setup example_collaborators 5 1 ⟨some [0, 5, 2000, 1, 2], some [F32.point3]⟩ example_layer
      = Except.ok example_layer_after_first_setup ∧
    setup example_collaborators 2 1 ⟨some [4], none⟩ example_layer_after_first_setup
      = Except.ok example_layer_after_second_setup ∧
    example_layer_after_first_setup.h_runtime_top_k_.length = 5 ∧
    example_layer_after_first_setup.h_runtime_top_p_.length = 5 ∧
    example_layer_after_first_setup.h_runtime_top_k_.length
      ≤ example_layer_after_second_setup.h_runtime_top_k_.length ∧
    example_layer_after_first_setup.h_runtime_top_p_.length
      ≤ example_layer_after_second_setup.h_runtime_top_p_.length ∧
    2 ≤ example_layer_after_second_setup.h_runtime_top_k_.length ∧
    2 ≤ example_layer_after_second_setup.h_runtime_top_p_.length :=
  ⟨rfl, rfl, rfl, rfl,
   (host_buffers_never_shrink example_collaborators example_layer_after_first_setup
      (Reachable.by_setup example_layer example_layer_after_first_setup 5 1
        ⟨some [0, 5, 2000, 1, 2], some [F32.point3]⟩
        (Reachable.constructed example_layer rfl rfl) rfl)
      2 1 ⟨some [4], none⟩ example_layer_after_second_setup rfl).1,
   (host_buffers_never_shrink example_collaborators example_layer_after_first_setup
      (Reachable.by_setup example_layer example_layer_after_first_setup 5 1
        ⟨some [0, 5, 2000, 1, 2], some [F32.point3]⟩
        (Reachable.constructed example_layer rfl rfl) rfl)
      2 1 ⟨some [4], none⟩ example_layer_after_second_setup rfl).2.1,
   ((host_buffers_never_shrink example_collaborators example_layer_after_first_setup
      (Reachable.by_setup example_layer example_layer_after_first_setup 5 1
        ⟨some [0, 5, 2000, 1, 2], some [F32.point3]⟩
        (Reachable.constructed example_layer rfl rfl) rfl)
      2 1 ⟨some [4], none⟩ example_layer_after_second_setup rfl).2.2.1 rfl).1,
   ((host_buffers_never_shrink example_collaborators example_layer_after_first_setup
      (Reachable.by_setup example_layer example_layer_after_first_setup 5 1
        ⟨some [0, 5, 2000, 1, 2], some [F32.point3]⟩
        (Reachable.constructed example_layer rfl rfl) rfl)
      2 1 ⟨some [4], none⟩ example_layer_after_second_setup rfl).2.2.1 rfl).2⟩

/-- C6 (counterexample): with `batch_size = 5`, a `runtime_top_k` of length 3
(all zero) and the scalar `runtime_top_p = 0.5`, `setup` takes the skip-all
path and returns normally; with `batch_size = 2` and a present `runtime_top_k`
of length 0, `setup` also returns normally. -/
theorem setup_accepts_bad_length :
    setup example_collaborators 5 1 ⟨some [0, 0, 0], some [F32.half]⟩ example_layer
      = Except.ok { example_layer with skip_all_ := true } ∧
    ((some [0, 0, 0] : Option (List Nat)).getD []).length ≠ 1 ∧
    ((some [0, 0, 0] : Option (List Nat)).getD []).length ≠ 5 ∧
    (∃ s', setup example_collaborators 2 1 ⟨some [], none⟩ example_layer = Except.ok s') ∧
    ((some [] : Option (List Nat)).getD []).length ≠ 1 ∧
    ((some [] : Option (List Nat)).getD []).length ≠ 2 :=
  ⟨rfl, by decide, by decide, ⟨_, rfl⟩, by decide, by decide⟩

/-- C6 (amended): for every call `setup(batch_size, runtime_args)` that does not
take the skip-all path (`max_top_k == 0 && min_top_p != 0.0f` is false) and in
which `runtime_top_k` or `runtime_top_p` has a length greater than 1 and
different from `batch_size`, `setup` aborts with an error, whatever the layer
state, the collaborators and the values stored in the two arguments. -/
theorem setup_rejects_bad_length {β : Type} (c : Collaborators β)
    (batch_size beam_width : Nat) (runtime_args : RuntimeArgs) (s : TopKSamplingLayer β)
    (hskip : setup_skip_all runtime_args = false)
    (hbad : ((runtime_args.runtime_top_k.getD []).length > 1 ∧
          (runtime_args.runtime_top_k.getD []).length ≠ batch_size) ∨
        ((runtime_args.runtime_top_p.getD []).length > 1 ∧
          (runtime_args.runtime_top_p.getD []).length ≠ batch_size)) :
    (∃ e, setup c batch_size beam_width runtime_args s = Except.error e) ∧
    ∀ s', setup c batch_size beam_width runtime_args s ≠ Except.ok s' := by
  obtain ⟨e, he⟩ := setup_error_of_bad_size c batch_size beam_width runtime_args s hskip hbad
  refine ⟨⟨e, he⟩, fun s' hs' => ?_⟩
  rw [he] at hs'
  exact absurd hs' (by simp)

/-- Witness for C6: `batch_size = 5` and a `runtime_top_k = [1, 2, 3]` of length
3; the call is off the skip-all path and aborts. -/
theorem setup_rejects_bad_length_witness :
    setup_skip_all ⟨some [1, 2, 3], none⟩ = false ∧
    (∃ e, setup example_collaborators 5 1 ⟨some [1, 2, 3], none⟩ example_layer
      = Except.error e) :=
  ⟨rfl, (setup_rejects_bad_length example_collaborators 5 1 ⟨some [1, 2, 3], none⟩
      example_layer rfl (Or.inl (by decide))).1⟩

/-- C5 (evaluation at the failing input): `batch_size = 2`,
`runtime_top_k = [0, 0]`, `runtime_top_p = [-0.5, 0.0]`. The resolver stores
`k = 1` for request 1 (so not every per-request `k` resolves to `0`), yet the
guard of line 154 holds (`max_top_k = 0`, `min_top_p = -0.5`) and `setup`
returns with `skip_all_ = true`. -/
theorem skip_all_set_with_resolved_k_one :
    (setup_resolved 2 ⟨some [0, 0], some [F32.negHalf, F32.zero]⟩ example_layer).top_ks
      = [0, 1] ∧
    setup_max_top_k ⟨some [0, 0], some [F32.negHalf, F32.zero]⟩ = 0 ∧
    setup_min_top_p ⟨some [0, 0], some [F32.negHalf, F32.zero]⟩ = F32.negHalf ∧
    setup example_collaborators 2 1 ⟨some [0, 0], some [F32.negHalf, F32.zero]⟩ example_layer
      = Except.ok { example_layer with skip_all_ := true } :=
  ⟨by decide, by decide, by decide, rfl⟩

/-- C10 (evaluation at the failing input): `batch_size = 2`, `runtime_top_k`
absent, `runtime_top_p = [0.0, -0.2]`. The guard of line 154 holds
(`max_top_k = 0`, `min_top_p = -0.2`), so `setup` takes the skip-all path, but
`setup_topk_runtime_args<1024>` on the same sources stores
`skip_decode[0] = false` and `top_ks[0] = 1`: request 0 would have been
sampled. -/
theorem skip_all_defers_sampled_request :
    setup_skip_all ⟨none, some [F32.zero, F32.negPoint2]⟩ = true ∧
    setup_topk_runtime_args 1024 2 0 [0, 0] 0 F32.zero [F32.zero, F32.negPoint2] 2
      [true, true] = ⟨[1, 0], [F32.one, F32.zero], [false, true]⟩ ∧
    (setup_resolved 2 ⟨none, some [F32.zero, F32.negPoint2]⟩ example_layer).skip_decode[0]?
      = some false := by
  decide

end turbomind

namespace turbomind

/-! ## Workspace capacity -/

theorem int_of_size_t_of_lt (n : Nat) (h : n < 2147483648) : int_of_size_t n = (n : Int) := by
  unfold int_of_size_t
  omega

theorem foldl_max_le (xs : List Nat) (x M : Nat) (hx : x ≤ M) (hxs : ∀ y ∈ xs, y ≤ M) :
    xs.foldl (fun m e => if m < e then e else m) x ≤ M := by
  induction xs generalizing x with
  | nil => simpa using hx
  | cons y ys ih =>
    simp only [List.foldl_cons]
    apply ih
    · by_cases h : x < y
      · rw [if_pos h]; exact hxs y (List.mem_cons_self y ys)
      · rw [if_neg h]; exact hx
    · intro z hz
      exact hxs z (List.mem_cons_of_mem y hz)

theorem le_foldl_max (xs : List Nat) (x : Nat) :
    x ≤ xs.foldl (fun m e => if m < e then e else m) x ∧
      ∀ y ∈ xs, y ≤ xs.foldl (fun m e => if m < e then e else m) x := by
  induction xs generalizing x with
  | nil => simp
  | cons y ys ih =>
    simp only [List.foldl_cons]
    have h1 := ih (if x < y then y else x)
    have hx : x ≤ (if x < y then y else x) := by split <;> omega
    have hy : y ≤ (if x < y then y else x) := by split <;> omega
    refine ⟨le_trans hx h1.1, ?_⟩
    intro z hz
    rcases List.mem_cons.1 hz with h | h
    · rw [h]; exact le_trans hy h1.1
    · exact h1.2 z h

/-- Every element of a tensor is at most its `max()`. -/
theorem le_tensor_max (t : List Nat) (y : Nat) (hy : y ∈ t) : y ≤ tensor_max t := by
  cases t with
  | nil => exact absurd hy (List.not_mem_nil y)
  | cons x xs =>
    have h := le_foldl_max xs x
    show y ≤ xs.foldl (fun m e => if m < e then e else m) x
    rcases List.mem_cons.1 hy with h1 | h1
    · rw [h1]; exact h.1
    · exact h.2 y h1

theorem max_element_deref_le (v : List Nat) (n M : Nat) (hn : 1 ≤ n) (hlen : n ≤ v.length)
    (h : ∀ i, i < n → ∀ x, v[i]? = some x → x ≤ M) : max_element_deref v n ≤ M := by
  unfold max_element_deref
  have hall : ∀ y ∈ v.take n, y ≤ M := by
    intro y hy
    obtain ⟨i, hi⟩ := List.mem_iff_getElem?.1 hy
    have hin : i < n := by
      by_contra hge
      rw [List.getElem?_take_eq_none (by omega)] at hi
      exact absurd hi (by simp)
    rw [List.getElem?_take_of_lt hin] at hi
    exact h i hin y hi
  cases htake : v.take n with
  | nil =>
    have hl : (v.take n).length = 0 := by rw [htake]; rfl
    rw [List.length_take] at hl
    omega
  | cons x xs =>
    rw [htake] at hall
    exact foldl_max_le xs x M (hall x (List.mem_cons_self x xs))
      (fun y hy => hall y (List.mem_cons_of_mem x hy))

theorem resolve_request_top_k_le_max (K k : Nat) (p : F32) :
    (resolve_request K k p).1 ≤ max 1 k := by
  simp only [resolve_request]
  have hk1 : (if (k == 0 && F32.eq p F32.zero) = true then 1 else k) ≤ max 1 k := by
    split <;> omega
  generalize (if (k == 0 && F32.eq p F32.zero) = true then 1 else k) = k1 at hk1
  by_cases h : k1 > K
  · rw [if_pos h]; omega
  · rw [if_neg h]; exact hk1

theorem allocateBuffer_max_top_k_pos (top_k : List Nat) : 1 ≤ allocateBuffer_max_top_k top_k := by
  unfold allocateBuffer_max_top_k
  simp only [beq_iff_eq]
  generalize (if top_k.length > 0 then tensor_max top_k else 1) = m
  by_cases h : m = 0
  · rw [if_pos h]
  · rw [if_neg h]; omega

/-- With a per-element `runtime_top_k` of length `batch_size`, the staged host
buffer holds the tensor's elements below `batch_size`. -/
theorem setup_staged_top_k_getElem {β : Type} (batch_size : Nat) (runtime_args : RuntimeArgs)
    (s : TopKSamplingLayer β) (hgt : (runtime_args.runtime_top_k.getD []).length > 1)
    (hlen : (runtime_args.runtime_top_k.getD []).length = batch_size)
    (i : Nat) (hi : i < batch_size) :
    (setup_staged_top_k batch_size runtime_args s)[i]?
      = (runtime_args.runtime_top_k.getD [])[i]? := by
  unfold setup_staged_top_k
  simp only [if_pos hgt]
  unfold copy_n
  rw [List.getElem?_append_left (by rw [List.length_take]; omega),
    List.getElem?_take_of_lt hi]

/-- The raw `k` that `setup` hands to the resolver for request `i` is at most the
batch-wide `max_top_k` of line 149. -/
theorem setup_raw_k_le {β : Type} (batch_size : Nat) (hB : batch_size < 2147483648)
    (runtime_args : RuntimeArgs) (s : TopKSamplingLayer β)
    (hk : ¬ ((runtime_args.runtime_top_k.getD []).length > 1 ∧
          (runtime_args.runtime_top_k.getD []).length ≠ batch_size))
    (i : Nat) (hi : i < batch_size) :
    raw_k (if (runtime_args.runtime_top_k.getD []).length > 0 then
        tensor_getVal (runtime_args.runtime_top_k.getD []) else 0)
      (setup_staged_top_k batch_size runtime_args s)
      (int_of_size_t (runtime_args.runtime_top_k.getD []).length) i
      ≤ setup_max_top_k runtime_args := by
  unfold raw_k setup_max_top_k
  by_cases h1 : (runtime_args.runtime_top_k.getD []).length > 1
  · have hlen : (runtime_args.runtime_top_k.getD []).length = batch_size := by
      by_contra hne
      exact hk ⟨h1, hne⟩
    have hconv : int_of_size_t (runtime_args.runtime_top_k.getD []).length
        = ((runtime_args.runtime_top_k.getD []).length : Int) :=
      int_of_size_t_of_lt _ (by omega)
    have hgt : int_of_size_t (runtime_args.runtime_top_k.getD []).length > 1 := by
      rw [hconv]; omega
    have hpos : (runtime_args.runtime_top_k.getD []).length > 0 := by omega
    simp only [if_pos hgt, if_pos hpos, List.getD_eq_getElem?_getD]
    rw [setup_staged_top_k_getElem batch_size runtime_args s h1 hlen i hi]
    have hil : i < (runtime_args.runtime_top_k.getD []).length := by omega
    rw [List.getElem?_eq_getElem hil, Option.getD_some]
    exact le_tensor_max _ _ (List.getElem_mem hil)
  · have hconv : int_of_size_t (runtime_args.runtime_top_k.getD []).length
        = ((runtime_args.runtime_top_k.getD []).length : Int) :=
      int_of_size_t_of_lt _ (by omega)
    have hngt : ¬ int_of_size_t (runtime_args.runtime_top_k.getD []).length > 1 := by
      rw [hconv]; omega
    simp only [if_neg hngt]
    by_cases hpos : (runtime_args.runtime_top_k.getD []).length > 0
    · simp only [if_pos hpos]
      cases ht : runtime_args.runtime_top_k.getD [] with
      | nil => rw [ht] at hpos; exact absurd hpos (by simp)
      | cons x xs =>
        apply le_tensor_max
        simp [tensor_getVal]
    · simp only [if_neg hpos]
      exact le_rfl

/-- Entries of the resolved `top_ks` below `batch_size`, as wired by `setup`. -/
theorem setup_resolved_top_ks_at {β : Type} (batch_size : Nat) (hB : batch_size < 2147483648)
    (runtime_args : RuntimeArgs) (s : TopKSamplingLayer β) (i : Nat) (hi : i < batch_size)
    (hlen : i < (setup_staged_top_k batch_size runtime_args s).length) :
    (setup_resolved batch_size runtime_args s).top_ks[i]? =
      some (resolve_request 1024
        (raw_k (if (runtime_args.runtime_top_k.getD []).length > 0 then
            tensor_getVal (runtime_args.runtime_top_k.getD []) else 0)
          (setup_staged_top_k batch_size runtime_args s)
          (int_of_size_t (runtime_args.runtime_top_k.getD []).length) i)
        (raw_p (if (runtime_args.runtime_top_p.getD []).length > 0 then
            tensor_getVal (runtime_args.runtime_top_p.getD []) else F32.zero)
          (setup_staged_top_p batch_size runtime_args s)
          (int_of_size_t (runtime_args.runtime_top_p.getD []).length) i)).1 := by
  have hconv := int_of_size_t_of_lt batch_size hB
  rw [setup_resolved_eq]
  have h := setup_topk_runtime_args_at 1024 (int_of_size_t batch_size)
    (if (runtime_args.runtime_top_k.getD []).length > 0 then
      tensor_getVal (runtime_args.runtime_top_k.getD []) else 0)
    (setup_staged_top_k batch_size runtime_args s)
    (int_of_size_t (runtime_args.runtime_top_k.getD []).length)
    (if (runtime_args.runtime_top_p.getD []).length > 0 then
      tensor_getVal (runtime_args.runtime_top_p.getD []) else F32.zero)
    (setup_staged_top_p batch_size runtime_args s)
    (int_of_size_t (runtime_args.runtime_top_p.getD []).length) s.skip_decode_ i
    (by rw [hconv]; omega)
  exact h.1 hlen

/-- After a successful `setup` off the skip-all path, `runtime_max_top_k_` is at
most `max(1, max_top_k)` for the batch-wide `max_top_k` of line 149. -/
theorem setup_runtime_max_top_k_le {β : Type} (c : Collaborators β)
    (batch_size beam_width : Nat) (hB1 : 1 ≤ batch_size) (hB : batch_size < 2147483648)
    (runtime_args : RuntimeArgs) (s s' : TopKSamplingLayer β)
    (hskip : setup_skip_all runtime_args = false)
    (hok : setup c batch_size beam_width runtime_args s = Except.ok s') :
    s'.runtime_max_top_k_ ≤ max 1 (setup_max_top_k runtime_args) := by
  obtain ⟨_, _, hk, _, _⟩ :=
    setup_of_not_skip_all c batch_size beam_width runtime_args s s' hskip hok
  obtain ⟨_, _, _, _, hmax, _, _⟩ :=
    setup_fields_of_not_skip_all c batch_size beam_width runtime_args s s' hskip hok
  rw [hmax]
  have hlen := (setup_resolved_length batch_size runtime_args s).1
  have hkl := setup_staged_top_k_length batch_size runtime_args s hk
  apply max_element_deref_le _ _ _ hB1 (by rw [hlen, hkl]; omega)
  intro i hi x hx
  rw [setup_resolved_top_ks_at batch_size hB runtime_args s i hi (by rw [hkl]; omega)] at hx
  have hx' := Option.some.inj hx
  rw [← hx']
  exact le_trans (resolve_request_top_k_le_max 1024 _ _)
    (max_le_max le_rfl (setup_raw_k_le batch_size hB runtime_args s hk i hi))

theorem setup_max_top_k_le_allocateBuffer_max_top_k (runtime_args : RuntimeArgs) :
    max 1 (setup_max_top_k runtime_args)
      ≤ allocateBuffer_max_top_k (runtime_args.runtime_top_k.getD []) := by
  unfold setup_max_top_k allocateBuffer_max_top_k
  simp only [beq_iff_eq]
  by_cases hpos : (runtime_args.runtime_top_k.getD []).length > 0
  · simp only [if_pos hpos]
    generalize tensor_max (runtime_args.runtime_top_k.getD []) = m
    by_cases hm : m = 0
    · rw [if_pos hm, hm]; decide
    · rw [if_neg hm]; omega
  · simp only [if_neg hpos]
    decide

/-- After a successful `setup` off the skip-all path the workspace, re-sized by
the base call for the call's own `runtime_top_k`, covers the
`runtime_max_top_k_` the call computes. -/
theorem setup_workspace_covers {β : Type} (c : Collaborators β)
    (hmono : ∀ b k1 k2, k1 ≤ k2 → c.workspace_size k1 b ≤ c.workspace_size k2 b)
    (batch_size beam_width : Nat) (hB1 : 1 ≤ batch_size) (hB : batch_size < 2147483648)
    (runtime_args : RuntimeArgs) (s s' : TopKSamplingLayer β)
    (hskip : setup_skip_all runtime_args = false)
    (hok : setup c batch_size beam_width runtime_args s = Except.ok s') :
    c.workspace_size s'.runtime_max_top_k_ batch_size ≤ s'.sampling_workspace_size_ ∧
    s'.sampling_workspace_ = s'.sampling_workspace_size_ := by
  obtain ⟨_, _, _, _, _, hw, hw'⟩ :=
    setup_fields_of_not_skip_all c batch_size beam_width runtime_args s s' hskip hok
  have hmax := setup_runtime_max_top_k_le c batch_size beam_width hB1 hB runtime_args s s'
    hskip hok
  rw [hw, hw']
  exact ⟨hmono batch_size _ _
    (le_trans hmax (setup_max_top_k_le_allocateBuffer_max_top_k runtime_args)), rfl⟩

/-- One successful `setup` call keeps the workspace-capacity invariant. -/
theorem setup_keeps_workspace_cover {β : Type} (c : Collaborators β)
    (hmono : ∀ b k1 k2, k1 ≤ k2 → c.workspace_size k1 b ≤ c.workspace_size k2 b)
    (batch_size beam_width : Nat) (hB1 : 1 ≤ batch_size) (hB : batch_size < 2147483648)
    (runtime_args : RuntimeArgs) (s s' : TopKSamplingLayer β)
    (hs : c.workspace_size s.runtime_max_top_k_ batch_size ≤ s.sampling_workspace_size_ ∧
      s.sampling_workspace_ = s.sampling_workspace_size_)
    (hok : setup c batch_size beam_width runtime_args s = Except.ok s') :
    c.workspace_size s'.runtime_max_top_k_ batch_size ≤ s'.sampling_workspace_size_ ∧
    s'.sampling_workspace_ = s'.sampling_workspace_size_ := by
  cases hskip : setup_skip_all runtime_args with
  | true =>
    rw [setup_of_skip_all c batch_size beam_width runtime_args s hskip] at hok
    have hs' : s' = { s with skip_all_ := true } := (Except.ok.inj hok).symm
    rw [hs']
    exact hs
  | false =>
    exact setup_workspace_covers c hmono batch_size beam_width hB1 hB runtime_args s s'
      hskip hok

/-- A sequence of successful `setup` calls with one `batch_size` keeps the
workspace-capacity invariant. -/
theorem setup_sequence_keeps_workspace_cover {β : Type} (c : Collaborators β)
    (hmono : ∀ b k1 k2, k1 ≤ k2 → c.workspace_size k1 b ≤ c.workspace_size k2 b)
    (batch_size beam_width : Nat) (hB1 : 1 ≤ batch_size) (hB : batch_size < 2147483648)
    (argsList : List RuntimeArgs) :
    ∀ s s' : TopKSamplingLayer β,
      (c.workspace_size s.runtime_max_top_k_ batch_size ≤ s.sampling_workspace_size_ ∧
        s.sampling_workspace_ = s.sampling_workspace_size_) →
      setup_sequence c beam_width (argsList.map fun a => (batch_size, a)) s = Except.ok s' →
      c.workspace_size s'.runtime_max_top_k_ batch_size ≤ s'.sampling_workspace_size_ ∧
      s'.sampling_workspace_ = s'.sampling_workspace_size_ := by
  induction argsList with
  | nil =>
    intro s s' hs hok
    have h : s = s' := Except.ok.inj hok
    rw [← h]
    exact hs
  | cons a rest ih =>
    intro s s' hs hok
    simp only [List.map_cons] at hok
    unfold setup_sequence at hok
    cases h1 : setup c batch_size beam_width a s with
    | error e => simp only [h1] at hok; exact absurd hok (by simp)
    | ok s1 =>
      simp only [h1] at hok
      exact ih s1 s' (setup_keeps_workspace_cover c hmono batch_size beam_width hB1 hB a s s1
        hs h1) hok

/-- C7: workspace-capacity invariant. Take any sizing query monotone in
`max_top_k` and a batch size with `1 ≤ batch_size < 2^31`. In every layer state
reached by `allocateBuffer(batch_size, top_k, top_p)`, called on a layer whose
`runtime_max_top_k_` is at most the `max_top_k` of that allocation, followed by
any sequence of successful `setup(batch_size, runtime_args)` calls,
`sampling_workspace_size_` is at least `size(runtime_max_top_k_, batch_size)`,
and the allocated workspace has that size. -/
theorem workspace_covers_runtime_max_top_k {β : Type} (c : Collaborators β)
    (hmono : ∀ b k1 k2, k1 ≤ k2 → c.workspace_size k1 b ≤ c.workspace_size k2 b)
    (batch_size beam_width : Nat) (hB1 : 1 ≤ batch_size) (hB : batch_size < 2147483648)
    (top_k : List Nat) (top_p : List F32) (s0 s' : TopKSamplingLayer β)
    (h0 : s0.runtime_max_top_k_ ≤ allocateBuffer_max_top_k top_k)
    (argsList : List RuntimeArgs)
    (hrun : setup_sequence c beam_width (argsList.map fun a => (batch_size, a))
      (allocateBuffer c batch_size top_k top_p s0) = Except.ok s') :
    c.workspace_size s'.runtime_max_top_k_ batch_size ≤ s'.sampling_workspace_size_ ∧
    s'.sampling_workspace_ = s'.sampling_workspace_size_ := by
  apply setup_sequence_keeps_workspace_cover c hmono batch_size beam_width hB1 hB argsList
    (allocateBuffer c batch_size top_k top_p s0) s' _ hrun
  exact ⟨hmono batch_size _ _ h0, rfl⟩

/-- Witness for C7: the concrete layer (`runtime_max_top_k_ = 1`),
`allocateBuffer(3, [7], [])` (sized for `max_top_k = 7`), then `setup` with
`runtime_top_k = [0, 5, 2000]`, which re-sizes the workspace to 6000 bytes and
resolves `runtime_max_top_k_ = 1024` (3072 bytes needed), then a skip-all
`setup` with the scalar `runtime_top_k = 0`. -/
theorem workspace_covers_runtime_max_top_k_witness :
    setup_sequence example_collaborators 1
        ([⟨some [0, 5, 2000], some [F32.point3]⟩, ⟨some [0], some [F32.half]⟩].map
          fun a => (3, a))
        (allocateBuffer example_collaborators 3 [7] [] example_layer)
      = Except.ok example_layer_allocated_after_setups ∧
    example_layer.runtime_max_top_k_ ≤ allocateBuffer_max_top_k [7] ∧
    example_collaborators.workspace_size
        example_layer_allocated_after_setups.runtime_max_top_k_ 3
      ≤ example_layer_allocated_after_setups.sampling_workspace_size_ ∧
    example_layer_allocated_after_setups.sampling_workspace_
      = example_layer_allocated_after_setups.sampling_workspace_size_ :=
  ⟨rfl, by decide,
   workspace_covers_runtime_max_top_k example_collaborators
     (fun b _ _ h => Nat.mul_le_mul_right b h) 3 1 (by decide) (by decide)
     [7] [] example_layer example_layer_allocated_after_setups (by decide)
     [⟨some [0, 5, 2000], some [F32.point3]⟩, ⟨some [0], some [F32.half]⟩] rfl⟩

end turbomind

namespace turbomind

/-! ## The skip-all guard and the per-request resolver -/

theorem tensor_max_le (t : List Nat) (M : Nat) (h : ∀ y ∈ t, y ≤ M) : tensor_max t ≤ M := by
  cases t with
  | nil => exact Nat.zero_le M
  | cons x xs =>
    show xs.foldl (fun m e => if m < e then e else m) x ≤ M
    exact foldl_max_le xs x M (h x (List.mem_cons_self x xs))
      (fun y hy => h y (List.mem_cons_of_mem x hy))

theorem resolve_request_raw_k_zero (K : Nat) (hK : 1 ≤ K) (k : Nat) (p : F32)
    (h : (resolve_request K k p).1 = 0) : k = 0 := by
  simp only [resolve_request] at h
  by_cases hk : k = 0
  · exact hk
  · have hk1 : (if (k == 0 && F32.eq p F32.zero) = true then 1 else k) = k := by
      simp [hk]
    rw [hk1] at h
    by_cases hgt : k > K
    · rw [if_pos hgt] at h; omega
    · rw [if_neg hgt] at h; exact h

/-- With sources of length 0, 1 or `batch_size`, if every raw `k` handed to the
resolver is `0` then the batch-wide `max_top_k` of line 149 is `0`. -/
theorem setup_max_top_k_zero_of_raw {β : Type} (batch_size : Nat) (hB1 : 1 ≤ batch_size)
    (hB : batch_size < 2147483648) (runtime_args : RuntimeArgs) (s : TopKSamplingLayer β)
    (hk : ¬ ((runtime_args.runtime_top_k.getD []).length > 1 ∧
          (runtime_args.runtime_top_k.getD []).length ≠ batch_size))
    (hraw : ∀ i, i < batch_size →
      raw_k (if (runtime_args.runtime_top_k.getD []).length > 0 then
          tensor_getVal (runtime_args.runtime_top_k.getD []) else 0)
        (setup_staged_top_k batch_size runtime_args s)
        (int_of_size_t (runtime_args.runtime_top_k.getD []).length) i = 0) :
    setup_max_top_k runtime_args = 0 := by
  unfold setup_max_top_k
  by_cases hpos : (runtime_args.runtime_top_k.getD []).length > 0
  · simp only [if_pos hpos]
    apply Nat.eq_zero_of_le_zero
    apply tensor_max_le
    intro y hy
    obtain ⟨j, hj, hjy⟩ := List.getElem_of_mem hy
    by_cases h1 : (runtime_args.runtime_top_k.getD []).length > 1
    · have hlen : (runtime_args.runtime_top_k.getD []).length = batch_size := by
        by_contra hne
        exact hk ⟨h1, hne⟩
      have hconv : int_of_size_t (runtime_args.runtime_top_k.getD []).length
          = ((runtime_args.runtime_top_k.getD []).length : Int) :=
        int_of_size_t_of_lt _ (by omega)
      have hgt : int_of_size_t (runtime_args.runtime_top_k.getD []).length > 1 := by
        rw [hconv]; omega
      have hr := hraw j (by omega)
      unfold raw_k at hr
      simp only [if_pos hgt, List.getD_eq_getElem?_getD] at hr
      rw [setup_staged_top_k_getElem batch_size runtime_args s h1 hlen j (by omega),
        List.getElem?_eq_getElem hj, Option.getD_some, hjy] at hr
      exact Nat.le_of_eq hr
    · have hconv : int_of_size_t (runtime_args.runtime_top_k.getD []).length
          = ((runtime_args.runtime_top_k.getD []).length : Int) :=
        int_of_size_t_of_lt _ (by omega)
      have hngt : ¬ int_of_size_t (runtime_args.runtime_top_k.getD []).length > 1 := by
        rw [hconv]; omega
      have hr := hraw 0 (by omega)
      unfold raw_k at hr
      simp only [if_neg hngt, if_pos hpos] at hr
      have hj0 : j = 0 := by omega
      subst hj0
      cases ht : runtime_args.runtime_top_k.getD [] with
      | nil => rw [ht] at hpos; exact absurd hpos (by simp)
      | cons x xs =>
        simp only [ht, tensor_getVal, List.headD_cons] at hr
        simp only [ht, List.getElem_cons_zero] at hjy
        omega
  · simp only [if_neg hpos]

/-- First half of the skip-all rule: for `1 ≤ batch_size < 2^31` and a
`runtime_top_k` of length 0, 1 or `batch_size`, if every per-request `k`
resolves to `0` and the batch minimum of `top_p` is nonzero, `setup` returns the
state with `skip_all_ = true` and every other component unchanged. -/
theorem setup_skips_all_of_all_resolved_zero {β : Type} (c : Collaborators β)
    (batch_size beam_width : Nat) (hB1 : 1 ≤ batch_size) (hB : batch_size < 2147483648)
    (runtime_args : RuntimeArgs) (s : TopKSamplingLayer β)
    (hk : ¬ ((runtime_args.runtime_top_k.getD []).length > 1 ∧
          (runtime_args.runtime_top_k.getD []).length ≠ batch_size))
    (hres : ∀ i, i < batch_size →
      (setup_resolved batch_size runtime_args s).top_ks[i]? = some 0)
    (hmin : F32.ne (setup_min_top_p runtime_args) F32.zero = true) :
    setup c batch_size beam_width runtime_args s = Except.ok { s with skip_all_ := true } := by
  apply setup_of_skip_all
  have hlenR := (setup_resolved_length batch_size runtime_args s).1
  have hmax : setup_max_top_k runtime_args = 0 := by
    apply setup_max_top_k_zero_of_raw batch_size hB1 hB runtime_args s hk
    intro i hi
    have hri := hres i hi
    have hil : i < (setup_staged_top_k batch_size runtime_args s).length := by
      rw [← hlenR]
      by_contra hge
      rw [List.getElem?_eq_none (by omega)] at hri
      exact absurd hri (by simp)
    rw [setup_resolved_top_ks_at batch_size hB runtime_args s i hi hil] at hri
    exact resolve_request_raw_k_zero 1024 (by decide) _ _ (Option.some.inj hri)
  unfold setup_skip_all
  rw [hmax, hmin]
  rfl

end turbomind

namespace turbomind

theorem F32.key_nonneg_of_le_zero (p : F32) (h : F32.le F32.zero p = true) : 0 ≤ p.key := by
  simp only [F32.le, F32.key_zero, Bool.and_eq_true, decide_eq_true_eq] at h
  exact h.2

theorem F32.eq_zero_false_of_key_pos (p : F32) (h : 0 < p.key) : F32.eq p F32.zero = false := by
  simp only [F32.eq, F32.key_zero, Bool.and_eq_false_imp, decide_eq_false_iff_not]
  intro _ _
  omega

theorem F32.key_ne_zero_of_ne_zero (p : F32) (hn : p.isNaN = false)
    (h : F32.ne p F32.zero = true) : p.key ≠ 0 := by
  simp only [F32.ne, F32.eq, F32.key_zero, F32.isNaN_zero, hn, Bool.not_false, Bool.true_and,
    Bool.not_eq_true', decide_eq_false_iff_not] at h
  exact h

theorem foldl_min_spec (xs : List F32) (x : F32) (hx : x.isNaN = false)
    (hxs : ∀ y ∈ xs, y.isNaN = false) :
    (xs.foldl (fun m v => if F32.lt v m then v else m) x).isNaN = false ∧
    (xs.foldl (fun m v => if F32.lt v m then v else m) x).key ≤ x.key ∧
    (∀ y ∈ xs, (xs.foldl (fun m v => if F32.lt v m then v else m) x).key ≤ y.key) ∧
    ((xs.foldl (fun m v => if F32.lt v m then v else m) x) = x ∨
      (xs.foldl (fun m v => if F32.lt v m then v else m) x) ∈ xs) := by
  induction xs generalizing x with
  | nil => simp [hx]
  | cons y ys ih =>
    simp only [List.foldl_cons]
    have hy : y.isNaN = false := hxs y (List.mem_cons_self y ys)
    have hys : ∀ z ∈ ys, z.isNaN = false := fun z hz => hxs z (List.mem_cons_of_mem y hz)
    by_cases hlt : F32.lt y x = true
    · rw [if_pos hlt]
      have h := ih y hy hys
      have hkey : y.key < x.key := by
        simp only [F32.lt, hx, hy, Bool.not_false, Bool.true_and, decide_eq_true_eq] at hlt
        exact hlt
      refine ⟨h.1, by omega, ?_, ?_⟩
      · intro z hz
        rcases List.mem_cons.1 hz with hz1 | hz1
        · rw [hz1]; exact h.2.1
        · exact h.2.2.1 z hz1
      · rcases h.2.2.2 with h1 | h1
        · right; rw [h1]; exact List.mem_cons_self y ys
        · right; exact List.mem_cons_of_mem y h1
    · rw [if_neg hlt]
      have h := ih x hx hys
      have hkey : x.key ≤ y.key := by
        simp only [F32.lt, hx, hy, Bool.not_false, Bool.true_and, decide_eq_true_eq,
          not_lt] at hlt
        exact hlt
      refine ⟨h.1, h.2.1, ?_, ?_⟩
      · intro z hz
        rcases List.mem_cons.1 hz with hz1 | hz1
        · rw [hz1]; omega
        · exact h.2.2.1 z hz1
      · rcases h.2.2.2 with h1 | h1
        · left; exact h1
        · right; exact List.mem_cons_of_mem y h1

/-- On a tensor whose values are neither NaN nor negative, a nonzero `min()`
means that no value compares equal to `0.0f`. -/
theorem eq_zero_false_of_tensor_min_ne_zero (t : List F32)
    (hnn : ∀ p ∈ t, p.isNaN = false ∧ F32.le F32.zero p = true)
    (hmin : F32.ne (tensor_min t) F32.zero = true) :
    ∀ p ∈ t, F32.eq p F32.zero = false := by
  cases t with
  | nil => intro p hp; exact absurd hp (List.not_mem_nil p)
  | cons x xs =>
    have hspec := foldl_min_spec xs x (hnn x (List.mem_cons_self x xs)).1
      (fun y hy => (hnn y (List.mem_cons_of_mem x hy)).1)
    have hm : tensor_min (x :: xs) = xs.foldl (fun m v => if F32.lt v m then v else m) x := rfl
    rw [hm] at hmin
    generalize xs.foldl (fun m v => if F32.lt v m then v else m) x = m at hspec hmin
    have hmem : m ∈ x :: xs := by
      rcases hspec.2.2.2 with h | h
      · rw [h]; exact List.mem_cons_self x xs
      · exact List.mem_cons_of_mem x h
    have hm0 : 0 ≤ m.key := F32.key_nonneg_of_le_zero m (hnn m hmem).2
    have hm1 : m.key ≠ 0 := F32.key_ne_zero_of_ne_zero m hspec.1 hmin
    intro p hp
    apply F32.eq_zero_false_of_key_pos
    rcases List.mem_cons.1 hp with h | h
    · rw [h]; have := hspec.2.1; omega
    · have := hspec.2.2.1 p h; omega

/-- With a per-element `runtime_top_p` of length `batch_size`, the staged host
buffer holds the tensor's elements below `batch_size`. -/
theorem setup_staged_top_p_getElem {β : Type} (batch_size : Nat) (runtime_args : RuntimeArgs)
    (s : TopKSamplingLayer β) (hgt : (runtime_args.runtime_top_p.getD []).length > 1)
    (hlen : (runtime_args.runtime_top_p.getD []).length = batch_size)
    (i : Nat) (hi : i < batch_size) :
    (setup_staged_top_p batch_size runtime_args s)[i]?
      = (runtime_args.runtime_top_p.getD [])[i]? := by
  unfold setup_staged_top_p
  simp only [if_pos hgt]
  unfold copy_n
  rw [List.getElem?_append_left (by rw [List.length_take]; omega),
    List.getElem?_take_of_lt hi]

/-- The raw `p` that `setup` hands to the resolver for request `i` is a value of
the `runtime_top_p` tensor when that tensor is not empty. -/
theorem setup_raw_p_mem {β : Type} (batch_size : Nat) (hB : batch_size < 2147483648)
    (runtime_args : RuntimeArgs) (s : TopKSamplingLayer β)
    (hp : ¬ ((runtime_args.runtime_top_p.getD []).length > 1 ∧
          (runtime_args.runtime_top_p.getD []).length ≠ batch_size))
    (hpos : (runtime_args.runtime_top_p.getD []).length > 0)
    (i : Nat) (hi : i < batch_size) :
    raw_p (if (runtime_args.runtime_top_p.getD []).length > 0 then
        tensor_getVal (runtime_args.runtime_top_p.getD []) else F32.zero)
      (setup_staged_top_p batch_size runtime_args s)
      (int_of_size_t (runtime_args.runtime_top_p.getD []).length) i
      ∈ runtime_args.runtime_top_p.getD [] := by
  unfold raw_p
  by_cases h1 : (runtime_args.runtime_top_p.getD []).length > 1
  · have hlen : (runtime_args.runtime_top_p.getD []).length = batch_size := by
      by_contra hne
      exact hp ⟨h1, hne⟩
    have hconv : int_of_size_t (runtime_args.runtime_top_p.getD []).length
        = ((runtime_args.runtime_top_p.getD []).length : Int) :=
      int_of_size_t_of_lt _ (by omega)
    have hgt : int_of_size_t (runtime_args.runtime_top_p.getD []).length > 1 := by
      rw [hconv]; omega
    simp only [if_pos hgt, List.getD_eq_getElem?_getD]
    rw [setup_staged_top_p_getElem batch_size runtime_args s h1 hlen i hi]
    have hil : i < (runtime_args.runtime_top_p.getD []).length := by omega
    rw [List.getElem?_eq_getElem hil, Option.getD_some]
    exact List.getElem_mem hil
  · have hconv : int_of_size_t (runtime_args.runtime_top_p.getD []).length
        = ((runtime_args.runtime_top_p.getD []).length : Int) :=
      int_of_size_t_of_lt _ (by omega)
    have hngt : ¬ int_of_size_t (runtime_args.runtime_top_p.getD []).length > 1 := by
      rw [hconv]; omega
    simp only [if_neg hngt, if_pos hpos]
    cases ht : runtime_args.runtime_top_p.getD [] with
    | nil => rw [ht] at hpos; exact absurd hpos (by simp)
    | cons x xs => simp [tensor_getVal]

/-- Entries of the resolved `skip_decode` below `batch_size`, as wired by `setup`. -/
theorem setup_resolved_skip_decode_at {β : Type} (batch_size : Nat)
    (hB : batch_size < 2147483648) (runtime_args : RuntimeArgs) (s : TopKSamplingLayer β)
    (i : Nat) (hi : i < batch_size) (hlen : i < s.skip_decode_.length) :
    (setup_resolved batch_size runtime_args s).skip_decode[i]? =
      some (resolve_request 1024
        (raw_k (if (runtime_args.runtime_top_k.getD []).length > 0 then
            tensor_getVal (runtime_args.runtime_top_k.getD []) else 0)
          (setup_staged_top_k batch_size runtime_args s)
          (int_of_size_t (runtime_args.runtime_top_k.getD []).length) i)
        (raw_p (if (runtime_args.runtime_top_p.getD []).length > 0 then
            tensor_getVal (runtime_args.runtime_top_p.getD []) else F32.zero)
          (setup_staged_top_p batch_size runtime_args s)
          (int_of_size_t (runtime_args.runtime_top_p.getD []).length) i)).2.2 := by
  have hconv := int_of_size_t_of_lt batch_size hB
  rw [setup_resolved_eq]
  have h := setup_topk_runtime_args_at 1024 (int_of_size_t batch_size)
    (if (runtime_args.runtime_top_k.getD []).length > 0 then
      tensor_getVal (runtime_args.runtime_top_k.getD []) else 0)
    (setup_staged_top_k batch_size runtime_args s)
    (int_of_size_t (runtime_args.runtime_top_k.getD []).length)
    (if (runtime_args.runtime_top_p.getD []).length > 0 then
      tensor_getVal (runtime_args.runtime_top_p.getD []) else F32.zero)
    (setup_staged_top_p batch_size runtime_args s)
    (int_of_size_t (runtime_args.runtime_top_p.getD []).length) s.skip_decode_ i
    (by rw [hconv]; omega)
  exact h.2.2 hlen

/-- Consistency of skip-all with the per-request skip on the intended domain:
for `batch_size < 2^31`, sources of length 0, 1 or `batch_size`, and a
`runtime_top_p` whose values are neither NaN nor negative, if the guard of line
154 holds then the resolver, on the same sources, stores `skip_decode[i] = true`
for every request `i` below `batch_size` that the array holds. -/
theorem skip_all_consistent_of_nonneg_top_p {β : Type} (batch_size : Nat)
    (hB : batch_size < 2147483648) (runtime_args : RuntimeArgs) (s : TopKSamplingLayer β)
    (hk : ¬ ((runtime_args.runtime_top_k.getD []).length > 1 ∧
          (runtime_args.runtime_top_k.getD []).length ≠ batch_size))
    (hp : ¬ ((runtime_args.runtime_top_p.getD []).length > 1 ∧
          (runtime_args.runtime_top_p.getD []).length ≠ batch_size))
    (hnn : ∀ p ∈ runtime_args.runtime_top_p.getD [],
      p.isNaN = false ∧ F32.le F32.zero p = true)
    (hskip : setup_skip_all runtime_args = true)
    (i : Nat) (hi : i < batch_size) (hlen : i < s.skip_decode_.length) :
    (setup_resolved batch_size runtime_args s).skip_decode[i]? = some true := by
  unfold setup_skip_all at hskip
  simp only [Bool.and_eq_true, beq_iff_eq] at hskip
  obtain ⟨hmax, hmin⟩ := hskip
  have hpos : (runtime_args.runtime_top_p.getD []).length > 0 := by
    by_contra hnp
    unfold setup_min_top_p at hmin
    simp only [if_neg hnp] at hmin
    exact absurd hmin (by decide)
  have hminT : F32.ne (tensor_min (runtime_args.runtime_top_p.getD [])) F32.zero = true := by
    unfold setup_min_top_p at hmin
    simp only [if_pos hpos] at hmin
    exact hmin
  have hrk := setup_raw_k_le batch_size hB runtime_args s hk i hi
  rw [hmax] at hrk
  have hrk0 := Nat.eq_zero_of_le_zero hrk
  have hrp := eq_zero_false_of_tensor_min_ne_zero _ hnn hminT _
    (setup_raw_p_mem batch_size hB runtime_args s hp hpos i hi)
  rw [setup_resolved_skip_decode_at batch_size hB runtime_args s i hi hlen, hrk0]
  have hne : F32.ne (raw_p (if (runtime_args.runtime_top_p.getD []).length > 0 then
        tensor_getVal (runtime_args.runtime_top_p.getD []) else F32.zero)
      (setup_staged_top_p batch_size runtime_args s)
      (int_of_size_t (runtime_args.runtime_top_p.getD []).length) i) F32.zero = true := by
    unfold F32.ne
    rw [hrp]
    rfl
  rw [(resolve_request_zero_nonzero 1024 _ hne).2]

end turbomind
